import Mathlib

/-!
Verification development for the credit-agreement assembly pipeline
(`lambda_function.py`, packaged deployment variant under `package/`).

The pipeline joins six tabular record sets, resolves per-template field
mappings with formatting, optionally extracts key/value pairs from a scanned
approval memo and generates an "approval conditions" narrative, and emits one
output record per processed application row.

Modelling conventions:
* cell values are `Val` (null/NaN slot, text, or rational number — the claims
  never exercise binary floating-point rounding);
* Python `dict`s are association lists with in-place replacement on existing
  keys (insertion order preserved), matching CPython semantics;
* fallible Python code (KeyError, IndexError, service failures) is `Except`;
* the external services (document analysis, text generation, template
  rendering — all out of the core's scope per the design) are a `Services`
  record of explicitly-injected capability functions.
-/

set_option maxRecDepth 10000

namespace CreditAgreements

/-- A cell value in a tabular record: a missing/NaN slot, a text value, or a
numeric value. -/
inductive Val where
  | null : Val
  | str : String → Val
  | num : Rat → Val
deriving DecidableEq, Repr

abbrev Row := List (String × Val)

/-- Label lookup in an association list (first match wins, as in a pandas
Series / Python dict read). -/
def lookupD {α : Type} (d : List (String × α)) (c : String) : Option α :=
  (d.find? (fun p => p.1 = c)).map (fun p => p.2)

/-- Column access on a row, mirroring a pandas Series lookup by label. -/
def getV (r : Row) (c : String) : Option Val := lookupD r c

/-- `Series.get(c, default)`: the stored value when the label exists (even when
that value is null/NaN), the default otherwise. -/
def rowGetD (r : Row) (c : String) (d : Val) : Val :=
  match getV r c with
  | some v => v
  | none => d

/-- `row[c]`: raises `KeyError` when the label is absent. -/
def pyGetItem (r : Row) (c : String) : Except String Val :=
  match getV r c with
  | some v => .ok v
  | none => .error ("KeyError: " ++ c)

/-- `pd.notnull` on a cell. -/
def notnull : Val → Bool
  | .null => false
  | _ => true

/-- `pd.notnull(row.get(c))`: false when the column is absent (`Series.get`
returns `None`) or holds a null. -/
def notnullAt (r : Row) (c : String) : Bool :=
  match getV r c with
  | some v => notnull v
  | none => false

/-- Python truthiness of a cell (`if cam_text:`): empty text and zero are
falsy; a NaN float is truthy. -/
def pyTruthy : Val → Bool
  | .null => true
  | .str s => s ≠ ""
  | .num q => q ≠ 0

/-- Python `dict` assignment `d[k] = v`: replaces the value in place when the
key already exists, appends otherwise (insertion order preserved). -/
def dictSet {α : Type} (d : List (String × α)) (k : String) (v : α) :
    List (String × α) :=
  if d.any (fun p => p.1 = k) then
    d.map (fun p => if p.1 = k then (k, v) else p)
  else d ++ [(k, v)]

/-- Python `dict.update`: every key of `u` is written into `d` in order,
overwriting existing entries. -/
def dictUpdate {α : Type} (d u : List (String × α)) : List (String × α) :=
  u.foldl (fun acc p => dictSet acc p.1 p.2) d

/-! ### Python numeric conversion and formatting

Rational arithmetic is spelled out through `mkRat` and integer operations so
that every definition evaluates by kernel reduction. -/

/-- Exact rational product. -/
def ratMul (a b : Rat) : Rat := mkRat (a.num * b.num) (a.den * b.den)

/-- Exact rational difference. -/
def ratSub (a b : Rat) : Rat :=
  mkRat (a.num * (b.den : Int) - b.num * (a.den : Int)) (a.den * b.den)

/-- Strict order test on rationals (`Rat.blt` is the core comparison). -/
def ratLt (a b : Rat) : Bool := Rat.blt a b

/-- Absolute value. -/
def ratAbs (q : Rat) : Rat := if ratLt q 0 then Rat.neg q else q

def trimChars (l : List Char) : List Char :=
  ((l.dropWhile Char.isWhitespace).reverse.dropWhile Char.isWhitespace).reverse

/-- Python `str.strip()`: surrounding whitespace removed. -/
def pyStrip (s : String) : String := String.mk (trimChars s.toList)

def charDigit (c : Char) : Nat := c.toNat - '0'.toNat

def natOfDigits (l : List Char) : Nat :=
  l.foldl (fun a c => a * 10 + charDigit c) 0

/-- Python `float()` applied to text, modelling the stdlib parser on plain
decimal literals: optional surrounding whitespace, an optional sign, digits
with an optional single fractional part. Anything else fails to convert. -/
def parseDecimal (s : String) : Option Rat :=
  let cs := trimChars s.toList
  let neg : Bool := match cs with
    | '-' :: _ => true
    | _ => false
  let body : List Char := match cs with
    | '-' :: t => t
    | '+' :: t => t
    | _ => cs
  let ip := body.takeWhile Char.isDigit
  let rest := body.dropWhile Char.isDigit
  let signed : Int → Int := fun n => if neg then -n else n
  match rest with
  | [] =>
    if ip.isEmpty then none
    else some (mkRat (signed (natOfDigits ip)) 1)
  | '.' :: fr =>
    if fr.all Char.isDigit && (!ip.isEmpty || !fr.isEmpty) then
      some (mkRat (signed (natOfDigits ip * 10 ^ fr.length + natOfDigits fr))
        (10 ^ fr.length))
    else none
  | _ => none

/-- Python `float(val)` on a cell: numbers pass through, text is parsed
(`ValueError` on failure), a null slot fails (`TypeError` for `None`). -/
def pyFloat : Val → Except String Rat
  | .null => .error "TypeError: float() of null"
  | .num q => .ok q
  | .str s =>
    match parseDecimal s with
    | some q => .ok q
    | none => .error "ValueError: could not convert string to float"

def stripZeros : List Char → List Char
  | '0' :: t => stripZeros t
  | l => l

/-- Decimal digits of a rational with up to ten fractional places, used to
model `str()` of a simple float value in f-string interpolation. -/
def ratDecimalRepr (q : Rat) : String :=
  let sign := if ratLt q 0 then "-" else ""
  let a := ratAbs q
  let n := a.num.toNat
  let d := a.den
  let ip := n / d
  let fracNum := ((n % d) * 10 ^ 10) / d
  let fdigits :=
    (String.mk (List.replicate (10 - (toString fracNum).length) '0') ++
      toString fracNum).toList.reverse
  let fkept := (stripZeros fdigits).reverse
  sign ++ toString ip ++ "." ++
    (if fkept.isEmpty then "0" else String.mk fkept)

/-- Python `str()` of a cell as interpolated into an f-string: NaN prints
`"nan"`, text passes through, numbers print with a decimal point. -/
def pyStr : Val → String
  | .null => "nan"
  | .str s => s
  | .num q => ratDecimalRepr q

/-- Comma-group a reversed digit list in threes (helper for `{:,.2f}`). -/
def group3 : List Char → List Char
  | a :: b :: c :: d :: rest => a :: b :: c :: ',' :: group3 (d :: rest)
  | l => l

/-- Thousands-grouped decimal rendering of a natural number. -/
def groupedNat (n : Nat) : String :=
  String.mk ((group3 (toString n).toList.reverse).reverse)

/-- Two-digit zero-padded rendering. -/
def pad2 (n : Nat) : String :=
  if n < 10 then "0" ++ toString n else toString n

/-- Round a non-negative rational to the nearest integer, ties to even
(the rounding used by `format(..., ".2f")`). -/
def roundHalfEvenNonneg (x : Rat) : Nat :=
  let n := x.num.toNat
  let d := x.den
  let f := n / d
  let r2 := 2 * (n % d)
  if r2 < d then f
  else if d < r2 then f + 1
  else if f % 2 = 0 then f else f + 1

/-- `f"{q:,.2f}"` / `f"{q:.2f}"`: fixed two-decimal rendering, with optional
thousands grouping of the integer part. -/
def formatFixed2 (q : Rat) (grouped : Bool) : String :=
  let sign := if ratLt q 0 then "-" else ""
  let cents := roundHalfEvenNonneg (ratMul (ratAbs q) 100)
  let ip := cents / 100
  let fp := cents % 100
  sign ++ (if grouped then groupedNat ip else toString ip) ++ "." ++ pad2 fp

/-- `format_currency` from the packaged source: `"N/A"` for a null slot, and
for any value `float()` refuses to convert (the `ValueError`/`TypeError` is
caught); otherwise a dollar-prefixed, thousands-grouped two-decimal string. -/
def format_currency (v : Val) : String :=
  if notnull v then
    match pyFloat v with
    | .ok q => "$" ++ formatFixed2 q true
    | .error _ => "N/A"
  else "N/A"

/-- `format_percentage` from the packaged source: same tolerance, two-decimal
value suffixed with `%`. -/
def format_percentage (v : Val) : String :=
  if notnull v then
    match pyFloat v with
    | .ok q => formatFixed2 q false ++ "%"
    | .error _ => "N/A"
  else "N/A"

/-! ### Document field extraction (`extract_from_textract`) -/

/-- One relationship entry of a document-analysis block
(`{'Type': ..., 'Ids': [...]}`). -/
structure TRel where
  relType : String
  ids : List String
deriving DecidableEq, Repr

/-- One block of a document-analysis response. `text` is `some` exactly when
the raw block carries a `'Text'` entry. -/
structure TBlock where
  id : String
  blockType : String
  entityTypes : List String
  relationships : List TRel
  text : Option String
deriving DecidableEq, Repr

/-- A document-analysis response (`response['Blocks']`). -/
structure TextractResponse where
  blocks : List TBlock
deriving DecidableEq, Repr

/-- `{block['Id']: block for block in response['Blocks']}` — later duplicate
ids overwrite earlier ones, as in a Python dict comprehension. -/
def blocksById (resp : TextractResponse) : List (String × TBlock) :=
  resp.blocks.foldl (fun d b => dictSet d b.id b) []

/-- Concatenation of the texts of all `CHILD` fragments reachable from the
given relationships: for each child id, the first block of the response with
that id and a `'Text'` entry contributes its text, a missing one contributes
`''`. -/
def childText (resp : TextractResponse) (rels : List TRel) : String :=
  rels.foldl
    (fun acc rel =>
      if rel.relType = "CHILD" then
        rel.ids.foldl
          (fun a cid =>
            a ++ ((resp.blocks.find?
              (fun b => b.id = cid && b.text.isSome)).bind (fun b => b.text)).getD "")
          acc
      else acc)
    ""

/-- `next((rel['Ids'][0] for rel in rels if rel['Type'] == 'VALUE'), None)`:
the first id of the first `VALUE` relationship; absent relationship gives
`None`; an empty id list raises `IndexError`. -/
def valueBlockId (rels : List TRel) : Except String (Option String) :=
  match rels.find? (fun r => r.relType = "VALUE") with
  | none => .ok none
  | some r =>
    match r.ids with
    | [] => .error "IndexError: list index out of range"
    | i :: _ => .ok (some i)

/-- Is this block tagged as the key of a key-value set? -/
def isKeyBlock (b : TBlock) : Bool :=
  b.blockType = "KEY_VALUE_SET" && b.entityTypes.contains "KEY"

/-- `val_text` of one loop iteration: the child text of the value block the
id resolves to, the empty string when there is no pairing or no such
block. -/
def valTextOf (resp : TextractResponse) : Option String → String
  | some i =>
    match lookupD (blocksById resp) i with
    | some vb => childText resp vb.relationships
    | none => ""
  | none => ""

/-- One iteration of the extraction loop: a key block contributes its
trimmed label/value pair to the dict, any other block is skipped. -/
def extractStep (resp : TextractResponse)
    (fields : List (String × String)) (block : TBlock) :
    Except String (List (String × String)) :=
  if isKeyBlock block then do
    let vbid ← valueBlockId block.relationships
    pure (dictSet fields (pyStrip (childText resp block.relationships))
      (pyStrip (valTextOf resp vbid)))
  else pure fields

/-- The body of `extract_from_textract` after the service call: walk the
blocks in order; for every key block, build the label from its child
fragments and the value from the paired value block's child fragments, trim
both, and write them into the result dict. -/
def extractFromResponse (resp : TextractResponse) :
    Except String (List (String × String)) :=
  resp.blocks.foldlM (extractStep resp) []

/-! #### Declarative characterization of the extractor (for claim C10) -/

/-- The blocks tagged as the key of a key-value set, in response order. -/
def keyBlocks (resp : TextractResponse) : List TBlock :=
  resp.blocks.filter isKeyBlock

/-- All child-fragment ids reachable from the given relationships, in
order. -/
def childIds (rels : List TRel) : List String :=
  (rels.filter (fun r => r.relType = "CHILD")).flatMap (fun r => r.ids)

/-- The text of one fragment: the first block of the response with that id
and a `'Text'` entry, or the empty string. -/
def fragmentText (resp : TextractResponse) (cid : String) : String :=
  ((resp.blocks.find? (fun b => b.id = cid && b.text.isSome)).bind
    (fun b => b.text)).getD ""

/-- Concatenation of a list of strings. -/
def concatAll : List String → String
  | [] => ""
  | a :: t => a ++ concatAll t

/-- The label of a key block: its child-fragment texts concatenated and
trimmed. -/
def labelOf (resp : TextractResponse) (b : TBlock) : String :=
  pyStrip (concatAll ((childIds b.relationships).map (fragmentText resp)))

/-- The value block paired to a key block: the block (by id) named by the
first id of its first `VALUE` relationship. -/
def valueBlockOf (resp : TextractResponse) (b : TBlock) : Option TBlock :=
  match b.relationships.find? (fun r => r.relType = "VALUE") with
  | none => none
  | some r =>
    match r.ids with
    | [] => none
    | i :: _ => lookupD (blocksById resp) i

/-- The value of a key block: the paired value block's child-fragment texts
concatenated and trimmed; a missing pairing contributes the empty string. -/
def valueOf (resp : TextractResponse) (b : TBlock) : String :=
  match valueBlockOf resp b with
  | none => ""
  | some vb =>
    pyStrip (concatAll ((childIds vb.relationships).map (fragmentText resp)))

/-- The declarative extraction result: one insertion per key block, in
response order (so duplicate labels resolve last-write-wins). -/
def extractSpec (resp : TextractResponse) : List (String × String) :=
  (keyBlocks resp).foldl
    (fun d b => dictSet d (labelOf resp b) (valueOf resp b)) []

/-! ### Narrative generation (`generate_approval_conditions`) and services -/

/-- One segment of a text-generation response (`content[i]`); `text` is
`some` exactly when the segment carries a `'text'` entry. -/
structure BedrockSegment where
  text : Option String
deriving DecidableEq, Repr

/-- The parsed body of a text-generation response; `content` is `some`
exactly when a `'content'` field is present. -/
structure BedrockResponse where
  content : Option (List BedrockSegment)
deriving DecidableEq, Repr

/-- The fixed user-role prompt sent to the text-generation model. -/
def promptOf (camText : String) : String :=
  "Review the following CAM and generate approval conditions for a loan:\n\n"
    ++ camText ++ "\n\nApproval Conditions:"

/-- The external collaborators, explicitly injected: document analysis
(`textract_client.analyze_document` keyed by the S3 object key), text
generation (`bedrock_runtime.invoke_model` keyed by the prompt), and template
rendering (out-of-scope pure function: template body + context → text).
An `Except.error` models a raised service exception. -/
structure Services where
  textract : Val → Except String TextractResponse
  bedrock : String → Except String BedrockResponse
  render : String → Row → String

/-- `generate_approval_conditions`: invoke the model on the fixed prompt and
return the first content segment's text, trimmed; a response without a
`content` field gives `"N/A"`; an empty content list or a segment without a
`text` entry raises. -/
def generate_approval_conditions (svc : Services) (camText : String) :
    Except String String := do
  let resp ← svc.bedrock (promptOf camText)
  match resp.content with
  | none => pure "N/A"
  | some segs =>
    match segs with
    | [] => .error "IndexError: list index out of range"
    | s0 :: _ =>
      match s0.text with
      | none => .error "KeyError: text"
      | some t => pure (pyStrip t)

/-- `extract_from_textract(bucket, key)` end to end: the service call followed
by response processing; a failure of either is a raised extraction failure. -/
def extract_from_textract (svc : Services) (s3Key : Val) :
    Except String (List (String × String)) := do
  let resp ← svc.textract s3Key
  extractFromResponse resp

/-! ### Tabular record sets and the record merger -/

/-- A tabular record set: a column list plus rows of labelled cells (a row is
well formed when its labels are exactly the columns, in order). -/
structure DF where
  cols : List String
  rows : List Row
deriving Repr

/-- Every row's labels are exactly the frame's columns. -/
def DF.wf (d : DF) : Prop :=
  ∀ r ∈ d.rows, r.map Prod.fst = d.cols

/-- No two rows share a value in the given column (right-hand uniqueness for
a one-to-at-most-one join). -/
def DF.keyUnique (d : DF) (key : String) : Prop :=
  d.rows.Pairwise (fun a b => getV a key ≠ getV b key)

instance (d : DF) : Decidable (DF.wf d) := by
  unfold DF.wf; infer_instance

instance (d : DF) (key : String) : Decidable (DF.keyUnique d key) := by
  unfold DF.keyUnique; infer_instance

/-- `drop(columns=cs, errors='ignore')`. -/
def DF.dropCols (d : DF) (cs : List String) : DF :=
  { cols := d.cols.filter (fun c => !cs.contains c),
    rows := d.rows.map (fun r => r.filter (fun p => !cs.contains p.1)) }

/-- The non-key columns present on both sides, which pandas disambiguates by
suffixing `_x`/`_y`. -/
def mergeCommon (l r : DF) (key : String) : List String :=
  l.cols.filter (fun c => decide (c ≠ key) && r.cols.contains c)

/-- Disambiguate a colliding column name with a pandas suffix. -/
def renCol (common : List String) (suffix c : String) : String :=
  if common.contains c then c ++ suffix else c

/-- The output rows one left row contributes to a left join: one row per
matching right row, or a single null-padded row when nothing matches. -/
def mergeRowsFor (r : DF) (key : String) (common : List String) (lr : Row) :
    List Row :=
  if (r.rows.filter (fun rr => getV rr key == getV lr key)).isEmpty then
    [lr.map (fun p => (renCol common "_x" p.1, p.2)) ++
      (r.cols.filter (fun c => c ≠ key)).map
        (fun c => (renCol common "_y" c, Val.null))]
  else
    (r.rows.filter (fun rr => getV rr key == getV lr key)).map (fun rr =>
      lr.map (fun p => (renCol common "_x" p.1, p.2)) ++
        (rr.filter (fun p => p.1 ≠ key)).map
          (fun p => (renCol common "_y" p.1, p.2)))

/-- `left.merge(right, on=key, how="left")`: every left row is paired with
every right row whose key cell agrees (an unmatched left row is kept once,
with the right columns null); colliding non-key columns are suffix-renamed
`_x` (left) and `_y` (right). -/
def DF.merge (l r : DF) (key : String) : DF :=
  { cols := l.cols.map (renCol (mergeCommon l r key) "_x") ++
      (r.cols.filter (fun c => c ≠ key)).map (renCol (mergeCommon l r key) "_y"),
    rows := l.rows.flatMap (mergeRowsFor r key (mergeCommon l r key)) }

/-- The columns dropped from each later record set before joining, to avoid
suffix-renamed duplicates of already-present columns. -/
def droppedJoinCols : List String := ["client_id", "requested_amount"]

/-- The merge chain of `main`: loan applications joined with clients on
`client_id`, then with the four remaining sets on `application_id`, each of
those first stripped of reintroduced `client_id`/`requested_amount`
columns. -/
def recordMerger (clients loan_applications borrowing_requests
    underwriting_decisions credit_approval_memos term_sheets : DF) : DF :=
  ((((loan_applications.merge clients "client_id").merge
      (borrowing_requests.dropCols droppedJoinCols) "application_id").merge
      (underwriting_decisions.dropCols droppedJoinCols) "application_id").merge
      (credit_approval_memos.dropCols droppedJoinCols) "application_id").merge
      (term_sheets.dropCols droppedJoinCols) "application_id"

/-! ### Template mapping resolution -/

/-- A field-mapping entry: a verbatim column reference, or a computed rule
(a function of the whole row, which may raise, e.g. `KeyError`). -/
inductive Rule where
  | col : String → Rule
  | computed : (Row → Except String Val) → Rule

/-- `lambda r: f"{r['address_line1']}, {r['city']}, {r['state']} {r['zip_code']}"` —
unconditional f-string composition; an absent column raises `KeyError`. -/
def borrowerAddressRule (r : Row) : Except String Val := do
  let a ← pyGetItem r "address_line1"
  let c ← pyGetItem r "city"
  let s ← pyGetItem r "state"
  let z ← pyGetItem r "zip_code"
  pure (Val.str (pyStr a ++ ", " ++ pyStr c ++ ", " ++ pyStr s ++ " " ++ pyStr z))

/-- `lambda r: float(r["property_value"]) - float(r["requested_amount"])
if pd.notnull(r["property_value"]) and pd.notnull(r["requested_amount"])
else "N/A"`. -/
def downPaymentRule (r : Row) : Except String Val := do
  let pv ← pyGetItem r "property_value"
  let ra ← pyGetItem r "requested_amount"
  if notnull pv && notnull ra then do
    let x ← pyFloat pv
    let y ← pyFloat ra
    pure (Val.num (ratSub x y))
  else
    pure (Val.str "N/A")

/-- The `TEMPLATE-001` field-mapping rules of the source. -/
def template1_fields : List (String × Rule) :=
  [("borrower_name", .col "full_name"),
   ("loan_amount", .col "requested_amount"),
   ("interest_rate", .col "recommended_rate"),
   ("loan_term", .col "term_years"),
   ("monthly_payment", .col "estimated_monthly_payment"),
   ("annual_income", .col "annual_income"),
   ("credit_score", .col "credit_score"),
   ("ltv_ratio", .col "ltv_ratio"),
   ("employment_status", .col "employment_status"),
   ("borrower_address", .computed borrowerAddressRule),
   ("property_address", .col "property_address"),
   ("property_value", .col "property_value"),
   ("down_payment", .computed downPaymentRule)]

/-- The `TEMPLATE-002` field-mapping rules of the source. -/
def template2_fields : List (String × Rule) :=
  [("borrower_name", .col "full_name"),
   ("loan_amount", .col "approved_amount"),
   ("interest_rate", .col "final_rate"),
   ("loan_term", .col "term_months"),
   ("monthly_payment", .col "monthly_installment"),
   ("annual_income", .col "annual_income"),
   ("credit_score", .col "credit_score"),
   ("loan_purpose", .col "loan_purpose")]

/-- The `TEMPLATE-003` field-mapping rules of the source. -/
def template3_fields : List (String × Rule) :=
  [("borrower_name", .col "full_name"),
   ("loan_amount", .col "requested_amount"),
   ("interest_rate", .col "interest_percent"),
   ("loan_term", .col "loan_duration_years"),
   ("monthly_payment", .col "monthly_repayment"),
   ("collateral_details", .col "collateral_details")]

/-- The hard-coded per-template field-mapping catalog of the source. -/
def template_mappings : List (String × List (String × Rule)) :=
  [("TEMPLATE-001", template1_fields),
   ("TEMPLATE-002", template2_fields),
   ("TEMPLATE-003", template3_fields)]

/-- `template_mappings.get(template_id, {})` — only a text id can match. -/
def mappingFor (tid : Val) : List (String × Rule) :=
  match tid with
  | .str s => (lookupD template_mappings s).getD []
  | _ => []

/-- One mapping entry evaluated against the row:
`src(row) if callable(src) else row.get(src, "N/A")`. -/
def evalRule (rule : Rule) (row : Row) : Except String Val :=
  match rule with
  | .col c => pure (rowGetD row c (Val.str "N/A"))
  | .computed f => f row

/-- The dict comprehension
`{field: (src(row) if callable(src) else row.get(src, "N/A")) for ...}`. -/
def buildRawContext (m : List (String × Rule)) (row : Row) :
    Except String Row :=
  m.foldlM (fun acc p => do
    let v ← evalRule p.2 row
    pure (dictSet acc p.1 v)) []

def currencyFields : List String :=
  ["loan_amount", "monthly_payment", "property_value", "down_payment"]

def percentageFields : List String := ["interest_rate", "ltv_ratio"]

/-- `if f in context: context[f] = fmt(context[f])`. -/
def formatField (fmt : Val → String) (ctx : Row) (f : String) : Row :=
  match lookupD ctx f with
  | some v => dictSet ctx f (Val.str (fmt v))
  | none => ctx

/-- The two formatting loops of `main`: currency fields, then percentage
fields, each rewritten in place when present in the context. -/
def applyFormatting (ctx : Row) : Row :=
  percentageFields.foldl (formatField format_percentage)
    (currencyFields.foldl (formatField format_currency) ctx)

/-- Resolve a template's field mapping against a row and apply formatting
(`context = {...}` plus the two formatting loops, before defaults). -/
def resolveContext (tid : Val) (row : Row) : Except String Row := do
  let raw ← buildRawContext (mappingFor tid) row
  pure (applyFormatting raw)

/-- The run-wide default values (`agreement_date` is the run date). -/
def defaults (today : String) : Row :=
  [("agreement_date", Val.str today),
   ("lender_name", Val.str "Citi Private Bank"),
   ("payment_day", Val.str "1st"),
   ("grace_period", Val.str "15"),
   ("state_jurisdiction", Val.str "New York")]

/-! ### Document assembly (orchestration) -/

/-- `row["template_id"] if pd.notnull(row.get("template_id")) else
"TEMPLATE-001"`. -/
def resolveTid (row : Row) : Val :=
  if notnullAt row "template_id" then rowGetD row "template_id" Val.null
  else Val.str "TEMPLATE-001"

/-- A loaded template catalog entry (rendered body plus display name). -/
structure TemplateInfo where
  content : String
  name : String
deriving DecidableEq, Repr

/-- `template_map.get(template_id)` — only a text id can match. -/
def templateLookup (catalog : List (String × TemplateInfo)) (tid : Val) :
    Option TemplateInfo :=
  match tid with
  | .str s => lookupD catalog s
  | _ => none

/-- The fixed fallback sentinel for the approval-conditions narrative. -/
def approvalSentinel : String := "Approval conditions not available."

/-- `"\n".join(f"{k}: {v}" for k, v in textract_fields.items())`. -/
def joinKV (fields : List (String × String)) : String :=
  String.intercalate "\n" (fields.map (fun p => p.1 ++ ": " ++ p.2))

/-- The narrative-source selection of `main` (`cam_text`): the memo-text
column when non-null; otherwise the serialized extraction result when the
document-location column is non-null and extraction succeeds (an extraction
failure is caught and leaves no source); otherwise no source. -/
def camTextOf (svc : Services) (row : Row) : Option Val :=
  if notnullAt row "cam_content" then
    some (rowGetD row "cam_content" Val.null)
  else if notnullAt row "cam_s3_key" then
    match extract_from_textract svc (rowGetD row "cam_s3_key" Val.null) with
    | .ok fields => some (Val.str (joinKV fields))
    | .error _ => none
  else none

/-- `context["approval_conditions"]`: the generated narrative when a truthy
source text was obtained (a generation failure propagates), the fixed
sentinel otherwise. -/
def rowApprovalConditions (svc : Services) (row : Row) :
    Except String String :=
  match camTextOf svc row with
  | some v =>
    if pyTruthy v then generate_approval_conditions svc (pyStr v)
    else pure approvalSentinel
  | none => pure approvalSentinel

/-- The fully assembled rendering context of one row: resolved mapping with
formatting, overlaid defaults, then the approval-conditions narrative. -/
def finalContext (svc : Services) (tid : Val) (row : Row) (today : String) :
    Except String Row := do
  let ctx ← resolveContext tid row
  let ctx1 := dictUpdate ctx (defaults today)
  let appr ← rowApprovalConditions svc row
  pure (dictSet ctx1 "approval_conditions" (Val.str appr))

/-- One output record (`output_rows.append({...})`), with the fixed workflow
status fields. -/
structure OutputRow where
  agreement_id : String
  cam_id : Val
  application_id : Val
  client_id : Val
  client_name : Val
  template_id : Val
  template_name : String
  loan_type : Val
  loan_amount : Val
  populated_agreement_content : String
  generation_date : String
  status : String
  review_required : String
  compliance_check : String
deriving DecidableEq, Repr

/-- The body of the per-row loop once the template definition was found:
assemble the context, render, and emit the output record. -/
def processFound (svc : Services) (tinfo : TemplateInfo)
    (today uuid : String) (row : Row) : Except String (Option OutputRow) := do
  let ctx ← finalContext svc (resolveTid row) row today
  let agreement := svc.render tinfo.content ctx
  let aid ← pyGetItem row "application_id"
  let cid ← pyGetItem row "client_id"
  pure (some
    { agreement_id := uuid,
      cam_id := rowGetD row "cam_id" (Val.str "N/A"),
      application_id := aid,
      client_id := cid,
      client_name := rowGetD row "full_name" (Val.str "N/A"),
      template_id := resolveTid row,
      template_name := tinfo.name,
      loan_type := rowGetD row "loan_type" (Val.str "N/A"),
      loan_amount := (lookupD ctx "loan_amount").getD (Val.str "N/A"),
      populated_agreement_content := agreement,
      generation_date := today,
      status := "Generated",
      review_required := "Yes",
      compliance_check := "Pending" })

/-- One iteration of the per-row loop of `main`: `.ok none` is a skipped row
(`continue` on an unknown template id), `.ok (some _)` an emitted record, and
`.error` an uncaught exception that aborts the run. -/
def processRow (svc : Services) (catalog : List (String × TemplateInfo))
    (today uuid : String) (row : Row) : Except String (Option OutputRow) :=
  match templateLookup catalog (resolveTid row) with
  | none => .ok none
  | some tinfo => processFound svc tinfo today uuid row

/-- `main` on in-memory inputs (per the spec's core boundary): merge the six
record sets, then process each merged row in order; the first uncaught
per-row exception aborts the run. `uuid i` is the freshly generated id of the
`i`-th merged row. -/
def main (svc : Services) (catalog : List (String × TemplateInfo))
    (today : String) (uuid : Nat → String)
    (clients loan_applications borrowing_requests underwriting_decisions
      credit_approval_memos term_sheets : DF) :
    Except String (List OutputRow) :=
  let df := recordMerger clients loan_applications borrowing_requests
    underwriting_decisions credit_approval_memos term_sheets
  df.rows.enum.foldlM
    (fun acc p => do
      match ← processRow svc catalog today (uuid p.1) p.2 with
      | some o => pure (acc ++ [o])
      | none => pure acc)
    []

/-! ### Concrete fixtures (service fakes, a template catalog, sample rows) -/

/-- A service fake whose document analysis raises and whose text generation
succeeds. -/
def sampleServices : Services :=
  { textract := fun _ => .error "textract unavailable",
    bedrock := fun _ => .ok ⟨some [⟨some " Verify income documents. "⟩]⟩,
    render := fun t _ => "RENDERED " ++ t }

/-- A service fake whose text generation raises. -/
def failingGenServices : Services :=
  { textract := fun _ => .error "textract unavailable",
    bedrock := fun _ => .error "bedrock unavailable",
    render := fun t _ => "RENDERED " ++ t }

/-- A loaded template catalog holding the baseline template and a fourth
template that has no field-mapping rule set. -/
def sampleCatalog : List (String × TemplateInfo) :=
  [("TEMPLATE-001", ⟨"T1 body", "Standard Mortgage"⟩),
   ("TEMPLATE-004", ⟨"T4 body", "Custom Agreement"⟩)]

/-- A fully populated merged application row for `TEMPLATE-001`. -/
def sampleRow : Row :=
  [("application_id", .str "APP-1"), ("client_id", .str "C-1"),
   ("template_id", .str "TEMPLATE-001"), ("full_name", .str "Alex Doe"),
   ("requested_amount", .num 400000), ("recommended_rate", .num 5),
   ("term_years", .num 30), ("estimated_monthly_payment", .num 2000),
   ("annual_income", .num 90000), ("credit_score", .num 700),
   ("ltv_ratio", .num 80), ("employment_status", .str "Employed"),
   ("address_line1", .str "1 Main St"), ("city", .str "Boston"),
   ("state", .str "MA"), ("zip_code", .str "02101"),
   ("property_address", .str "2 Oak Ave"), ("property_value", .num 500000),
   ("cam_content", .null), ("cam_s3_key", .null)]

/-- The sample row with a null (NaN) employment status, as a left join leaves
behind when the right-side source lacks the row. -/
def sampleRowNullES : Row := dictSet sampleRow "employment_status" Val.null

/-- The sample row with a null first address line. -/
def sampleRowNullAddr : Row := dictSet sampleRow "address_line1" Val.null

/-- The sample row with a null property value. -/
def sampleRowNullPV : Row := dictSet sampleRow "property_value" Val.null

/-- The sample row with pre-supplied memo text. -/
def sampleRowCam : Row := dictSet sampleRow "cam_content" (Val.str "Approved CAM text")

/-- The sample row whose memo-text column holds the empty string — non-null,
but falsy. -/
def sampleRowEmptyCam : Row := dictSet sampleRow "cam_content" (Val.str "")

/-- The sample row with a document location and no memo text. -/
def sampleRowS3 : Row := dictSet sampleRow "cam_s3_key" (Val.str "cams/APP-1.pdf")

/-- The sample row resolved to the mapping-less fourth template. -/
def sampleRowT4 : Row := dictSet sampleRow "template_id" (Val.str "TEMPLATE-004")

/-- The resolved (pre-defaults) context of the sample row. -/
def sampleCtx : Row :=
  match resolveContext (Val.str "TEMPLATE-001") sampleRow with
  | .ok c => c
  | .error _ => []

/-- A one-row loan-applications record set whose single row carries memo
text. -/
def loansWithCamDF : DF :=
  ⟨sampleRowCam.map Prod.fst, [sampleRowCam]⟩

/-- An empty clients record set (only the join key column). -/
def emptyClientsDF : DF := ⟨["client_id"], []⟩

/-- An empty application-keyed record set (only the join key column). -/
def emptyAppDF : DF := ⟨["application_id"], []⟩

/-- A small document-analysis response: one key/value pair made of word
fragments, plus a key block with no relationships at all. -/
def sampleResponse : TextractResponse :=
  ⟨[⟨"k1", "KEY_VALUE_SET", ["KEY"],
      [⟨"VALUE", ["v1"]⟩, ⟨"CHILD", ["w1", "w2"]⟩], none⟩,
    ⟨"v1", "KEY_VALUE_SET", ["VALUE"], [⟨"CHILD", ["w3"]⟩], none⟩,
    ⟨"w1", "WORD", [], [], some "Loan "⟩,
    ⟨"w2", "WORD", [], [], some "Amount:"⟩,
    ⟨"w3", "WORD", [], [], some " 500000 "⟩,
    ⟨"k2", "KEY_VALUE_SET", ["KEY"], [], none⟩]⟩

/-- A one-row loan-applications set. -/
def laDF : DF := ⟨["application_id", "client_id"],
  [[("application_id", .str "A1"), ("client_id", .str "C1")]]⟩

/-- A one-row clients set. -/
def clDF : DF := ⟨["client_id", "full_name"],
  [[("client_id", .str "C1"), ("full_name", .str "Al")]]⟩

/-- A borrowing-requests set with two distinct rows for one application. -/
def brDupDF : DF := ⟨["application_id", "amount"],
  [[("application_id", .str "A1"), ("amount", .num 1)],
   [("application_id", .str "A1"), ("amount", .num 2)]]⟩

/-- A borrowing-requests set that reintroduces the `full_name` column, a
collision the merger does not drop. -/
def brCollDF : DF := ⟨["application_id", "full_name"],
  [[("application_id", .str "A1"), ("full_name", .str "Bob")]]⟩

/-- A borrowing-requests set that reintroduces the two dropped join columns
plus one fresh column. -/
def brOkDF : DF :=
  ⟨["application_id", "client_id", "requested_amount", "amount"],
   [[("application_id", .str "A1"), ("client_id", .str "C9"),
     ("requested_amount", .num 7), ("amount", .num 1)]]⟩

/-! ### Basic lemmas about dictionaries and rows -/

theorem lookupD_cons {α : Type} (p : String × α) (d : List (String × α))
    (c : String) :
    lookupD (p :: d) c = if p.1 = c then some p.2 else lookupD d c := by
  by_cases h : p.1 = c <;> simp [lookupD, List.find?_cons, h]

theorem lookupD_append {α : Type} (a b : List (String × α)) (c : String) :
    lookupD (a ++ b) c =
      match lookupD a c with
      | some v => some v
      | none => lookupD b c := by
  induction a with
  | nil => simp [lookupD]
  | cons p t ih =>
    by_cases h : p.1 = c <;> simp [lookupD_cons, h, ih]

theorem lookupD_replace_eq {α : Type} (d : List (String × α)) (k : String)
    (v : α) :
    lookupD (d.map (fun p => if p.1 = k then (k, v) else p)) k =
      if d.any (fun p => p.1 = k) then some v else none := by
  induction d with
  | nil => simp [lookupD]
  | cons p t ih =>
    by_cases hp : p.1 = k
    · simp [hp, lookupD_cons]
    · simp only [List.map_cons, List.any_cons]
      rw [if_neg hp, lookupD_cons, if_neg hp, ih]
      simp only [decide_eq_false hp, Bool.false_or]

theorem lookupD_replace_ne {α : Type} (d : List (String × α)) (k c : String)
    (v : α) (hck : c ≠ k) :
    lookupD (d.map (fun p => if p.1 = k then (k, v) else p)) c = lookupD d c := by
  induction d with
  | nil => simp
  | cons p t ih =>
    by_cases hp : p.1 = k
    · have : k ≠ c := fun h => hck h.symm
      simp [hp, lookupD_cons, this, ih]
    · by_cases hpc : p.1 = c <;> simp [hp, lookupD_cons, hpc, hck, ih]

theorem lookupD_none_of_not_any {α : Type} (d : List (String × α))
    (k : String) (h : d.any (fun p => p.1 = k) = false) :
    lookupD d k = none := by
  induction d with
  | nil => rfl
  | cons p t ih =>
    simp only [List.any_cons, Bool.or_eq_false_iff, decide_eq_false_iff_not] at h
    simp [lookupD_cons, h.1, ih h.2]

theorem lookupD_dictSet_eq {α : Type} (d : List (String × α)) (k : String)
    (v : α) : lookupD (dictSet d k v) k = some v := by
  unfold dictSet
  by_cases h : d.any (fun p => p.1 = k)
  · simp [h, lookupD_replace_eq]
  · rw [if_neg (by simp [h]), lookupD_append,
      lookupD_none_of_not_any d k (by simp [h])]
    simp [lookupD_cons]

theorem lookupD_dictSet_ne {α : Type} (d : List (String × α)) (k c : String)
    (v : α) (hck : c ≠ k) : lookupD (dictSet d k v) c = lookupD d c := by
  unfold dictSet
  by_cases h : d.any (fun p => p.1 = k)
  · simp [h, lookupD_replace_ne _ _ _ _ hck]
  · rw [if_neg (by simp [h]), lookupD_append]
    have : k ≠ c := fun hx => hck hx.symm
    cases hd : lookupD d c <;> simp [lookupD, lookupD_cons, this]

theorem lookupD_dictSet {α : Type} (d : List (String × α)) (k c : String)
    (v : α) :
    lookupD (dictSet d k v) c = if c = k then some v else lookupD d c := by
  by_cases h : c = k
  · subst h; simp [lookupD_dictSet_eq]
  · simp [h, lookupD_dictSet_ne _ _ _ _ h]

theorem lookupD_dictUpdate_notmem {α : Type} (d u : List (String × α))
    (c : String) (h : ∀ p ∈ u, p.1 ≠ c) :
    lookupD (dictUpdate d u) c = lookupD d c := by
  induction u generalizing d with
  | nil => rfl
  | cons p t ih =>
    have hp : p.1 ≠ c := h p (by simp)
    have ht : ∀ q ∈ t, q.1 ≠ c := fun q hq => h q (by simp [hq])
    simp only [dictUpdate, List.foldl_cons]
    rw [show (List.foldl (fun acc p => dictSet acc p.1 p.2) (dictSet d p.1 p.2) t)
        = dictUpdate (dictSet d p.1 p.2) t from rfl, ih _ ht,
      lookupD_dictSet_ne _ _ _ _ (fun hx => hp hx.symm)]

theorem mem_of_lookupD_isSome {α : Type} (d : List (String × α)) (c : String)
    (h : (lookupD d c).isSome) : c ∈ d.map Prod.fst := by
  induction d with
  | nil => simp [lookupD] at h
  | cons p t ih =>
    rw [lookupD_cons] at h
    by_cases hp : p.1 = c
    · simp [hp]
    · rw [if_neg hp] at h
      simp [ih h]

theorem isSome_of_lookupD_dictSet {α : Type} (d : List (String × α))
    (k c : String) (v : α) (h : (lookupD (dictSet d k v) c).isSome) :
    c = k ∨ (lookupD d c).isSome := by
  by_cases hc : c = k
  · exact Or.inl hc
  · rw [lookupD_dictSet_ne _ _ _ _ hc] at h
    exact Or.inr h

/-! ### Lemmas about the context builder and formatting loops -/

theorem exceptPure_eq {α : Type} (a : α) :
    (pure a : Except String α) = .ok a := rfl

theorem exceptBind_ok {α β : Type} (a : α) (f : α → Except String β) :
    (Except.ok a >>= f) = f a := rfl

theorem exceptBind_err {α β : Type} (e : String) (f : α → Except String β) :
    ((Except.error e : Except String α) >>= f) = .error e := rfl

theorem exceptMap_ok {α β : Type} (a : α) (f : α → β) :
    (f <$> (Except.ok a : Except String α)) = .ok (f a) := rfl

theorem exceptBind_eq_ok {α β : Type} (e : Except String α)
    (f : α → Except String β) (b : β) (h : (e >>= f) = .ok b) :
    ∃ a, e = .ok a ∧ f a = .ok b := by
  cases e with
  | error msg => exact Except.noConfusion h
  | ok a => exact ⟨a, rfl, h⟩

theorem exceptMap_eq_ok {α β : Type} (e : Except String α) (f : α → β)
    (b : β) (h : (f <$> e) = .ok b) : ∃ a, e = .ok a ∧ f a = b := by
  cases e with
  | error msg => exact Except.noConfusion h
  | ok a =>
    refine ⟨a, rfl, ?_⟩
    have h2 : Except.ok (f a) = Except.ok b := h
    injection h2

/-- The fold step of `buildRawContext`. -/
def buildStep (row : Row) (acc : Row) (p : String × Rule) :
    Except String Row := do
  let v ← evalRule p.2 row
  pure (dictSet acc p.1 v)

theorem buildRawContext_as_foldlM (m : List (String × Rule)) (row : Row) :
    buildRawContext m row = m.foldlM (buildStep row) [] := rfl

theorem foldlM_buildStep_lookup_const (m : List (String × Rule)) (row : Row)
    (f : String) (hm : ∀ p ∈ m, p.1 ≠ f) :
    ∀ (acc raw : Row), m.foldlM (buildStep row) acc = .ok raw →
      lookupD raw f = lookupD acc f := by
  induction m with
  | nil =>
    intro acc raw h
    rw [List.foldlM_nil, exceptPure_eq] at h
    injection h with h
    rw [h]
  | cons q t ih =>
    intro acc raw h
    rw [List.foldlM_cons] at h
    cases hq : buildStep row acc q with
    | error e => rw [hq, exceptBind_err] at h; exact Except.noConfusion h
    | ok acc1 =>
      rw [hq, exceptBind_ok] at h
      have ht : ∀ p ∈ t, p.1 ≠ f := fun p hp => hm p (List.mem_cons_of_mem _ hp)
      rw [ih ht acc1 raw h]
      unfold buildStep at hq
      cases hv : evalRule q.2 row with
      | error e => rw [hv, exceptBind_err] at hq; exact Except.noConfusion hq
      | ok v =>
        rw [hv, exceptBind_ok, exceptPure_eq] at hq
        injection hq with hq
        rw [← hq]
        exact lookupD_dictSet_ne _ _ _ _ (fun hx => hm q (by simp) hx.symm)

/-- A mapping entry whose key is not repeated later in the list ends up in the
raw context with exactly its rule's value. -/
theorem buildRaw_lookup_of_split (m1 m2 : List (String × Rule)) (f : String)
    (rule : Rule) (row raw : Row) (hm2 : ∀ p ∈ m2, p.1 ≠ f)
    (h : buildRawContext (m1 ++ (f, rule) :: m2) row = .ok raw) :
    ∃ v, evalRule rule row = .ok v ∧ lookupD raw f = some v := by
  rw [buildRawContext_as_foldlM, List.foldlM_append] at h
  cases h1 : (m1.foldlM (buildStep row) ([] : Row)) with
  | error e => rw [h1, exceptBind_err] at h; exact Except.noConfusion h
  | ok acc1 =>
    rw [h1, exceptBind_ok, List.foldlM_cons] at h
    cases hv : buildStep row acc1 (f, rule) with
    | error e => rw [hv, exceptBind_err] at h; exact Except.noConfusion h
    | ok acc2 =>
      rw [hv, exceptBind_ok] at h
      unfold buildStep at hv
      cases he : evalRule rule row with
      | error e => rw [he, exceptBind_err] at hv; exact Except.noConfusion hv
      | ok v =>
        rw [he, exceptBind_ok, exceptPure_eq] at hv
        injection hv with hv
        refine ⟨v, rfl, ?_⟩
        rw [foldlM_buildStep_lookup_const m2 row f hm2 _ raw h, ← hv]
        exact lookupD_dictSet_eq _ _ _

/-- Every key resolved into the raw context is a declared target field. -/
theorem buildRaw_keys (m : List (String × Rule)) (row : Row) :
    ∀ (acc raw : Row) (c : String), m.foldlM (buildStep row) acc = .ok raw →
      (lookupD raw c).isSome →
      c ∈ m.map Prod.fst ∨ (lookupD acc c).isSome := by
  induction m with
  | nil =>
    intro acc raw c h hs
    rw [List.foldlM_nil, exceptPure_eq] at h
    injection h with h
    rw [← h] at hs
    exact Or.inr hs
  | cons q t ih =>
    intro acc raw c h hs
    rw [List.foldlM_cons] at h
    cases hq : buildStep row acc q with
    | error e => rw [hq, exceptBind_err] at h; exact Except.noConfusion h
    | ok acc1 =>
      rw [hq, exceptBind_ok] at h
      rcases ih acc1 raw c h hs with hmem | hacc
      · exact Or.inl (by simp [hmem])
      · unfold buildStep at hq
        cases hv : evalRule q.2 row with
        | error e => rw [hv, exceptBind_err] at hq; exact Except.noConfusion hq
        | ok v =>
          rw [hv, exceptBind_ok, exceptPure_eq] at hq
          injection hq with hq
          rw [← hq] at hacc
          rcases isSome_of_lookupD_dictSet _ _ _ _ hacc with hck | hacc2
          · exact Or.inl (by simp [hck])
          · exact Or.inr hacc2

theorem mappingFor_t1 :
    mappingFor (Val.str "TEMPLATE-001") = template1_fields := rfl

theorem mappingFor_t2 :
    mappingFor (Val.str "TEMPLATE-002") = template2_fields := rfl

theorem mappingFor_t3 :
    mappingFor (Val.str "TEMPLATE-003") = template3_fields := rfl

/-- The mapping catalog resolves every template id to one of the three
hard-coded rule sets, or to no fields at all. -/
theorem mappingFor_cases (tid : Val) :
    mappingFor tid = [] ∨ mappingFor tid = template1_fields ∨
      mappingFor tid = template2_fields ∨ mappingFor tid = template3_fields := by
  cases tid with
  | null => exact Or.inl rfl
  | num q => exact Or.inl rfl
  | str s =>
    by_cases h1 : ("TEMPLATE-001" : String) = s
    · subst h1; exact Or.inr (Or.inl rfl)
    · by_cases h2 : ("TEMPLATE-002" : String) = s
      · subst h2; exact Or.inr (Or.inr (Or.inl rfl))
      · by_cases h3 : ("TEMPLATE-003" : String) = s
        · subst h3; exact Or.inr (Or.inr (Or.inr rfl))
        · left
          simp [mappingFor, template_mappings, lookupD, List.find?, h1, h2, h3]

theorem lookupD_formatField_ne (fmt : Val → String) (ctx : Row)
    (g c : String) (h : c ≠ g) :
    lookupD (formatField fmt ctx g) c = lookupD ctx c := by
  unfold formatField
  cases lookupD ctx g with
  | none => rfl
  | some v => exact lookupD_dictSet_ne _ _ _ _ h

theorem lookupD_formatField_isSome (fmt : Val → String) (ctx : Row)
    (g c : String) (h : (lookupD (formatField fmt ctx g) c).isSome) :
    (lookupD ctx c).isSome := by
  unfold formatField at h
  cases hg : lookupD ctx g with
  | none => rwa [hg] at h
  | some v =>
    rw [hg] at h
    rcases isSome_of_lookupD_dictSet _ _ _ _ h with hc | hs
    · subst hc; rw [hg]; rfl
    · exact hs

theorem applyFormatting_eq (ctx : Row) :
    applyFormatting ctx =
      formatField format_percentage (formatField format_percentage
        (formatField format_currency (formatField format_currency
          (formatField format_currency (formatField format_currency
            ctx "loan_amount") "monthly_payment") "property_value")
          "down_payment") "interest_rate") "ltv_ratio" := rfl

theorem lookupD_applyFormatting_isSome (ctx : Row) (c : String)
    (h : (lookupD (applyFormatting ctx) c).isSome) :
    (lookupD ctx c).isSome := by
  rw [applyFormatting_eq] at h
  exact lookupD_formatField_isSome _ _ _ _
    (lookupD_formatField_isSome _ _ _ _
      (lookupD_formatField_isSome _ _ _ _
        (lookupD_formatField_isSome _ _ _ _
          (lookupD_formatField_isSome _ _ _ _
            (lookupD_formatField_isSome _ _ _ _ h)))))

/-- Fields outside both formatting lists pass through the formatting loops
unchanged. -/
theorem lookupD_applyFormatting_ne (ctx : Row) (c : String)
    (h1 : c ≠ "loan_amount") (h2 : c ≠ "monthly_payment")
    (h3 : c ≠ "property_value") (h4 : c ≠ "down_payment")
    (h5 : c ≠ "interest_rate") (h6 : c ≠ "ltv_ratio") :
    lookupD (applyFormatting ctx) c = lookupD ctx c := by
  rw [applyFormatting_eq, lookupD_formatField_ne _ _ _ _ h6,
    lookupD_formatField_ne _ _ _ _ h5, lookupD_formatField_ne _ _ _ _ h4,
    lookupD_formatField_ne _ _ _ _ h3, lookupD_formatField_ne _ _ _ _ h2,
    lookupD_formatField_ne _ _ _ _ h1]

theorem lookupD_formatField_eq (fmt : Val → String) (ctx : Row)
    (g : String) (v : Val) (h : lookupD ctx g = some v) :
    lookupD (formatField fmt ctx g) g = some (Val.str (fmt v)) := by
  unfold formatField
  rw [h]
  exact lookupD_dictSet_eq _ _ _

/-- The down-payment field after the formatting loops is its raw value fed
through `format_currency`. -/
theorem lookupD_applyFormatting_down_payment (ctx : Row) (v : Val)
    (h : lookupD ctx "down_payment" = some v) :
    lookupD (applyFormatting ctx) "down_payment" =
      some (Val.str (format_currency v)) := by
  rw [applyFormatting_eq,
    lookupD_formatField_ne _ _ _ _ (by decide),
    lookupD_formatField_ne _ _ _ _ (by decide)]
  apply lookupD_formatField_eq
  rw [lookupD_formatField_ne _ _ _ _ (by decide),
    lookupD_formatField_ne _ _ _ _ (by decide),
    lookupD_formatField_ne _ _ _ _ (by decide)]
  exact h

theorem resolveContext_eq (tid : Val) (row : Row) :
    resolveContext tid row =
      match buildRawContext (mappingFor tid) row with
      | .ok raw => .ok (applyFormatting raw)
      | .error e => .error e := by
  unfold resolveContext
  cases buildRawContext (mappingFor tid) row <;> rfl

theorem getV_some_pyGetItem (r : Row) (c : String) (v : Val)
    (h : getV r c = some v) : pyGetItem r c = .ok v := by
  simp [pyGetItem, h]

theorem getV_none_pyGetItem (r : Row) (c : String)
    (h : getV r c = none) : pyGetItem r c = .error ("KeyError: " ++ c) := by
  simp [pyGetItem, h]

theorem getV_some_rowGetD (r : Row) (c : String) (v d : Val)
    (h : getV r c = some v) : rowGetD r c d = v := by
  simp [rowGetD, h]

theorem notnullAt_some (r : Row) (c : String) (v : Val)
    (h : getV r c = some v) : notnullAt r c = notnull v := by
  simp [notnullAt, h]

/-! ### Claim theorems -/

/-- C5: `format_currency` returns the sentinel `"N/A"` for a null and for
every input `float()` cannot convert, and never escapes with an exception
(each input lands either in the sentinel or the formatted-dollar outcome);
on convertible input it returns a dollar-prefixed, thousands-grouped,
two-decimal string; `format_percentage` has the same tolerance with a `%`
suffix. In particular `format_currency(None) = "N/A"`,
`format_currency("abc") = "N/A"`, `format_currency(1234.5) = "$1,234.50"`,
and `format_percentage(7) = "7.00%"`. -/
theorem c5_formatters_sentinel_and_totality :
    format_currency Val.null = "N/A"
    ∧ format_currency (Val.str "abc") = "N/A"
    ∧ format_currency (Val.num (mkRat 2469 2)) = "$1,234.50"
    ∧ format_percentage (Val.num 7) = "7.00%"
    ∧ (∀ v : Val, format_currency v = "N/A"
        ∨ ∃ q, pyFloat v = .ok q ∧ format_currency v = "$" ++ formatFixed2 q true)
    ∧ (∀ v : Val, format_percentage v = "N/A"
        ∨ ∃ q, pyFloat v = .ok q ∧
            format_percentage v = formatFixed2 q false ++ "%") := by
  refine ⟨by decide, by decide, by decide, by decide, ?_, ?_⟩
  · intro v
    cases v with
    | null => exact Or.inl rfl
    | num q => exact Or.inr ⟨q, rfl, rfl⟩
    | str s =>
      cases h : parseDecimal s with
      | none => exact Or.inl (by simp [format_currency, notnull, pyFloat, h])
      | some q =>
        exact Or.inr ⟨q, by simp [pyFloat, h],
          by simp [format_currency, notnull, pyFloat, h]⟩
  · intro v
    cases v with
    | null => exact Or.inl rfl
    | num q => exact Or.inr ⟨q, rfl, rfl⟩
    | str s =>
      cases h : parseDecimal s with
      | none => exact Or.inl (by simp [format_percentage, notnull, pyFloat, h])
      | some q =>
        exact Or.inr ⟨q, by simp [pyFloat, h],
          by simp [format_percentage, notnull, pyFloat, h]⟩

/-- C6: on a `TEMPLATE-001` row whose context resolves, the `down_payment`
field is the difference of the two converted inputs fed through
`format_currency` when both are non-null (so 500000 and 400000 give
`"$100,000.00"`), and is `"N/A"` when either input is null. -/
theorem c6_down_payment_rule (row ctx : Row)
    (hok : resolveContext (Val.str "TEMPLATE-001") row = .ok ctx) :
    (∀ vp vr x y, getV row "property_value" = some vp →
      getV row "requested_amount" = some vr →
      notnull vp = true → notnull vr = true →
      pyFloat vp = .ok x → pyFloat vr = .ok y →
      lookupD ctx "down_payment" =
        some (Val.str (format_currency (Val.num (ratSub x y)))))
    ∧ (getV row "property_value" = some (Val.num 500000) →
      getV row "requested_amount" = some (Val.num 400000) →
      lookupD ctx "down_payment" = some (Val.str "$100,000.00"))
    ∧ (getV row "property_value" = some Val.null →
      lookupD ctx "down_payment" = some (Val.str "N/A"))
    ∧ (getV row "requested_amount" = some Val.null →
      lookupD ctx "down_payment" = some (Val.str "N/A")) := by
  rw [resolveContext_eq, mappingFor_t1] at hok
  cases hraw : buildRawContext template1_fields row with
  | error e => rw [hraw] at hok; exact Except.noConfusion hok
  | ok raw =>
    rw [hraw] at hok
    injection hok with hok
    subst hok
    have hsplit := buildRaw_lookup_of_split (template1_fields.take 12) []
      "down_payment" (Rule.computed downPaymentRule) row raw
      (fun p hp => absurd hp (List.not_mem_nil p))
      (by
        rw [show template1_fields.take 12 ++
          ("down_payment", Rule.computed downPaymentRule) :: [] =
          template1_fields from rfl]
        exact hraw)
    rcases hsplit with ⟨v, hv, hlook⟩
    have hfmt : ∀ w : Val, v = w →
        lookupD (applyFormatting raw) "down_payment" =
          some (Val.str (format_currency w)) := by
      intro w hw
      rw [← hw]
      exact lookupD_applyFormatting_down_payment raw v hlook
    refine ⟨?_, ?_, ?_, ?_⟩
    · intro vp vr x y hpv hra hnp hnr hx hy
      have hv2 : downPaymentRule row = .ok (Val.num (ratSub x y)) := by
        unfold downPaymentRule
        rw [getV_some_pyGetItem _ _ _ hpv, exceptBind_ok,
          getV_some_pyGetItem _ _ _ hra, exceptBind_ok, hnp, hnr]
        rw [show (true && true) = true from rfl, if_pos rfl, hx,
          exceptBind_ok, hy, exceptBind_ok]
        rfl
      have : Except.ok (Val.num (ratSub x y)) = Except.ok v := hv2.symm.trans hv
      injection this with this
      exact hfmt _ this.symm
    · intro hpv hra
      have hv2 : downPaymentRule row = .ok (Val.num (ratSub 500000 400000)) := by
        unfold downPaymentRule
        rw [getV_some_pyGetItem _ _ _ hpv, exceptBind_ok,
          getV_some_pyGetItem _ _ _ hra, exceptBind_ok]
        rfl
      have : Except.ok (Val.num (ratSub 500000 400000)) = Except.ok v :=
        hv2.symm.trans hv
      injection this with this
      rw [hfmt _ this.symm]
      decide
    · intro hpv
      cases hra : getV row "requested_amount" with
      | none =>
        exfalso
        have hv2 : downPaymentRule row = .error ("KeyError: requested_amount") := by
          unfold downPaymentRule
          rw [getV_some_pyGetItem _ _ _ hpv, exceptBind_ok,
            getV_none_pyGetItem _ _ hra, exceptBind_err]
          rfl
        exact Except.noConfusion (hv2.symm.trans hv)
      | some w =>
        have hv2 : downPaymentRule row = .ok (Val.str "N/A") := by
          unfold downPaymentRule
          rw [getV_some_pyGetItem _ _ _ hpv, exceptBind_ok,
            getV_some_pyGetItem _ _ _ hra, exceptBind_ok]
          rfl
        have : Except.ok (Val.str "N/A") = Except.ok v := hv2.symm.trans hv
        injection this with this
        rw [hfmt _ this.symm]
        decide
    · intro hra
      cases hpv : getV row "property_value" with
      | none =>
        exfalso
        have hv2 : downPaymentRule row = .error ("KeyError: property_value") := by
          unfold downPaymentRule
          rw [getV_none_pyGetItem _ _ hpv, exceptBind_err]
          rfl
        exact Except.noConfusion (hv2.symm.trans hv)
      | some w =>
        have hv2 : downPaymentRule row = .ok (Val.str "N/A") := by
          unfold downPaymentRule
          rw [getV_some_pyGetItem _ _ _ hpv, exceptBind_ok,
            getV_some_pyGetItem _ _ _ hra, exceptBind_ok]
          cases hnw : notnull w
          · rfl
          · rfl
        have : Except.ok (Val.str "N/A") = Except.ok v := hv2.symm.trans hv
        injection this with this
        rw [hfmt _ this.symm]
        decide

/-- C6 witness: the sample row carries property value 500000 and requested
amount 400000, and its resolved down payment is `"$100,000.00"`. -/
theorem c6_down_payment_rule_witness :
    lookupD sampleCtx "down_payment" = some (Val.str "$100,000.00") :=
  (c6_down_payment_rule sampleRow sampleCtx rfl).2.1 (by decide) (by decide)

/-- C7 counterexample: the claim fails as stated. On a row whose
`employment_status` column exists but is null (exactly what the left join
leaves for missing right-side fields), the resolver copies the null into the
context rather than substituting `"N/A"`: `Series.get(col, "N/A")` only falls
back to the default when the label is absent, not when the stored value is
null. -/
theorem c7_missing_value_copied_counterexample :
    Except.map (fun c => lookupD c "employment_status")
        (resolveContext (Val.str "TEMPLATE-001") sampleRowNullES) =
      .ok (some Val.null)
    ∧ Val.null ≠ Val.str "N/A" := by
  constructor
  · rfl
  · decide

/-- C7 (amended): for a verbatim column-reference rule, the resolver copies
the row's stored value whenever the column label exists — even when that
value is null — and substitutes the `"N/A"` sentinel only when the column is
entirely absent from the row; a verbatim rule never raises, so it never drops
the row. -/
theorem c7_verbatim_copy_amended (m1 m2 : List (String × Rule))
    (f src : String) (row raw : Row) (hm2 : ∀ p ∈ m2, p.1 ≠ f)
    (h : buildRawContext (m1 ++ (f, Rule.col src) :: m2) row = .ok raw) :
    (getV row src = none → lookupD raw f = some (Val.str "N/A"))
    ∧ (∀ v, getV row src = some v → lookupD raw f = some v) := by
  rcases buildRaw_lookup_of_split m1 m2 f _ row raw hm2 h with ⟨v, hv, hlook⟩
  have hv' : rowGetD row src (Val.str "N/A") = v := by
    have : Except.ok (rowGetD row src (Val.str "N/A")) = Except.ok v := hv
    injection this
  constructor
  · intro hn
    rw [hlook, ← hv']
    simp [rowGetD, hn]
  · intro w hw
    rw [hlook, ← hv']
    simp [rowGetD, hw]

/-- C7 witness: in `TEMPLATE-001`, `employment_status` is a verbatim
reference placed before three trailing entries with other names; on a row
where the column is present its value is copied, and on a row without the
column the sentinel appears. -/
theorem c7_verbatim_copy_amended_witness :
    lookupD (match buildRawContext template1_fields sampleRow with
      | .ok raw => raw
      | .error _ => []) "employment_status" = some (Val.str "Employed") := by
  have h := (c7_verbatim_copy_amended (template1_fields.take 8)
    (template1_fields.drop 9) "employment_status" "employment_status"
    sampleRow
    (match buildRawContext template1_fields sampleRow with
      | .ok raw => raw
      | .error _ => [])
    (by decide) rfl).2 (Val.str "Employed") (by decide)
  exact h

/-- C8 counterexample: the claim fails as stated. The address lambda performs
no null check: with a null `address_line1` the composed address is
`"nan, Boston, MA 02101"` (the f-string renders NaN as `"nan"`), not the
"not available" sentinel. -/
theorem c8_address_null_counterexample :
    Except.map (fun c => lookupD c "borrower_address")
        (resolveContext (Val.str "TEMPLATE-001") sampleRowNullAddr) =
      .ok (some (Val.str "nan, Boston, MA 02101"))
    ∧ Val.str "nan, Boston, MA 02101" ≠ Val.str "N/A" := by
  constructor
  · rfl
  · decide

/-- C8 (amended): `borrower_address` is composed unconditionally from the
four address parts whenever all four columns are present (null parts are
rendered as `"nan"`, with no sentinel substitution); a row missing one of the
four columns makes the rule raise `KeyError`, aborting the row instead of
degrading. -/
theorem c8_address_composition_amended (row ctx : Row) (a c s z : Val)
    (hok : resolveContext (Val.str "TEMPLATE-001") row = .ok ctx)
    (ha : getV row "address_line1" = some a) (hc : getV row "city" = some c)
    (hs : getV row "state" = some s) (hz : getV row "zip_code" = some z) :
    lookupD ctx "borrower_address" =
      some (Val.str (pyStr a ++ ", " ++ pyStr c ++ ", " ++ pyStr s ++ " "
        ++ pyStr z)) := by
  rw [resolveContext_eq, mappingFor_t1] at hok
  cases hraw : buildRawContext template1_fields row with
  | error e => rw [hraw] at hok; exact Except.noConfusion hok
  | ok raw =>
    rw [hraw] at hok
    injection hok with hok
    subst hok
    have hsplit := buildRaw_lookup_of_split (template1_fields.take 9)
      (template1_fields.drop 10) "borrower_address"
      (Rule.computed borrowerAddressRule) row raw (by decide)
      (by
        rw [show template1_fields.take 9 ++
          ("borrower_address", Rule.computed borrowerAddressRule) ::
            template1_fields.drop 10 = template1_fields from rfl]
        exact hraw)
    rcases hsplit with ⟨v, hv, hlook⟩
    have hv2 : borrowerAddressRule row =
        .ok (Val.str (pyStr a ++ ", " ++ pyStr c ++ ", " ++ pyStr s ++ " "
          ++ pyStr z)) := by
      unfold borrowerAddressRule
      rw [getV_some_pyGetItem _ _ _ ha, exceptBind_ok,
        getV_some_pyGetItem _ _ _ hc, exceptBind_ok,
        getV_some_pyGetItem _ _ _ hs, exceptBind_ok,
        getV_some_pyGetItem _ _ _ hz, exceptBind_ok]
      rfl
    have hveq : Except.ok (Val.str (pyStr a ++ ", " ++ pyStr c ++ ", "
        ++ pyStr s ++ " " ++ pyStr z)) = Except.ok v := hv2.symm.trans hv
    injection hveq with hveq
    rw [lookupD_applyFormatting_ne raw "borrower_address" (by decide)
      (by decide) (by decide) (by decide) (by decide) (by decide), hlook, hveq]

/-- C8 witness: on the fully populated sample row the composed address is the
four parts joined in the source's f-string shape. -/
theorem c8_address_composition_amended_witness :
    lookupD sampleCtx "borrower_address" =
      some (Val.str "1 Main St, Boston, MA 02101") :=
  c8_address_composition_amended sampleRow sampleCtx (Val.str "1 Main St")
    (Val.str "Boston") (Val.str "MA") (Val.str "02101") rfl (by decide)
    (by decide) (by decide) (by decide)

/-- C9: overlaying the run-wide defaults never changes an explicitly-resolved
field. `dict.update` overwrites by key, but no target field of any
field-mapping rule set shares a name with a default key, so every field
present in a resolved context keeps its value through the overlay. -/
theorem c9_defaults_never_override (tid : Val) (row ctx : Row)
    (today f : String) (h : resolveContext tid row = .ok ctx)
    (hf : (lookupD ctx f).isSome) :
    lookupD (dictUpdate ctx (defaults today)) f = lookupD ctx f := by
  rw [resolveContext_eq] at h
  cases hraw : buildRawContext (mappingFor tid) row with
  | error e => rw [hraw] at h; exact Except.noConfusion h
  | ok raw =>
    rw [hraw] at h
    injection h with h
    subst h
    have hraws : (lookupD raw f).isSome :=
      lookupD_applyFormatting_isSome raw f hf
    have hmem : f ∈ (mappingFor tid).map Prod.fst := by
      rcases buildRaw_keys (mappingFor tid) row [] raw f hraw hraws with hm | hbase
      · exact hm
      · simp [lookupD] at hbase
    have hne : ∀ p ∈ defaults today, p.1 ≠ f := by
      have hkeys : f ≠ "agreement_date" ∧ f ≠ "lender_name"
          ∧ f ≠ "payment_day" ∧ f ≠ "grace_period"
          ∧ f ≠ "state_jurisdiction" := by
        rcases mappingFor_cases tid with h0 | h1 | h2 | h3
        · rw [h0] at hmem; simp at hmem
        · rw [h1] at hmem
          revert hmem
          have : ∀ x ∈ template1_fields.map Prod.fst,
              x ≠ "agreement_date" ∧ x ≠ "lender_name" ∧ x ≠ "payment_day"
              ∧ x ≠ "grace_period" ∧ x ≠ "state_jurisdiction" := by decide
          exact this f
        · rw [h2] at hmem
          revert hmem
          have : ∀ x ∈ template2_fields.map Prod.fst,
              x ≠ "agreement_date" ∧ x ≠ "lender_name" ∧ x ≠ "payment_day"
              ∧ x ≠ "grace_period" ∧ x ≠ "state_jurisdiction" := by decide
          exact this f
        · rw [h3] at hmem
          revert hmem
          have : ∀ x ∈ template3_fields.map Prod.fst,
              x ≠ "agreement_date" ∧ x ≠ "lender_name" ∧ x ≠ "payment_day"
              ∧ x ≠ "grace_period" ∧ x ≠ "state_jurisdiction" := by decide
          exact this f
      intro p hp
      simp only [defaults, List.mem_cons, List.mem_singleton] at hp
      rcases hp with hp | hp | hp | hp | hp | hp
      · rw [hp]; exact fun hx => hkeys.1 hx.symm
      · rw [hp]; exact fun hx => hkeys.2.1 hx.symm
      · rw [hp]; exact fun hx => hkeys.2.2.1 hx.symm
      · rw [hp]; exact fun hx => hkeys.2.2.2.1 hx.symm
      · rw [hp]; exact fun hx => hkeys.2.2.2.2 hx.symm
      · exact absurd hp (List.not_mem_nil p)
    exact lookupD_dictUpdate_notmem _ (defaults today) f hne

/-- C9 witness: the sample row's resolved down payment survives the defaults
overlay unchanged. -/
theorem c9_defaults_never_override_witness :
    lookupD (dictUpdate sampleCtx (defaults "2026-01-01")) "down_payment" =
      lookupD sampleCtx "down_payment" :=
  c9_defaults_never_override (Val.str "TEMPLATE-001") sampleRow sampleCtx
    "2026-01-01" "down_payment" rfl (by decide)

/-- C1 counterexample: the claim fails as stated. Only the extraction call is
inside the `try`; `generate_approval_conditions` is invoked outside it, so a
failure raised during narrative generation (here: the model endpoint raising
on a row whose memo text is pre-supplied) is not caught at the row boundary:
the row does not complete with the fallback sentinel — the whole run
aborts. -/
theorem c1_generation_failure_aborts_counterexample :
    processRow failingGenServices sampleCatalog "2026-01-01" "uid-0"
        sampleRowCam = .error "bedrock unavailable"
    ∧ main failingGenServices sampleCatalog "2026-01-01" (fun _ => "uid-0")
        emptyClientsDF loansWithCamDF emptyAppDF emptyAppDF emptyAppDF
        emptyAppDF = .error "bedrock unavailable" :=
  ⟨rfl, rfl⟩

/-- C1 (amended): a failure raised during document field extraction (4.4) is
caught at the row boundary and degrades to the fallback sentinel — the row's
`approval_conditions` becomes `"Approval conditions not available."` and the
row still completes and appears in the output with status `"Generated"`. (A
failure raised during narrative generation (4.5) is not caught and aborts
the run; see the counterexample.) -/
theorem c1_extraction_failure_degrades_amended (svc : Services)
    (catalog : List (String × TemplateInfo)) (today uuid msg : String)
    (row ctx : Row) (tinfo : TemplateInfo) (aid cid : Val)
    (hcc : notnullAt row "cam_content" = false)
    (hs3 : notnullAt row "cam_s3_key" = true)
    (hex : extract_from_textract svc (rowGetD row "cam_s3_key" Val.null) =
      .error msg)
    (hcat : templateLookup catalog (resolveTid row) = some tinfo)
    (hres : resolveContext (resolveTid row) row = .ok ctx)
    (haid : getV row "application_id" = some aid)
    (hcid : getV row "client_id" = some cid) :
    camTextOf svc row = none
    ∧ rowApprovalConditions svc row = .ok approvalSentinel
    ∧ finalContext svc (resolveTid row) row today =
        .ok (dictSet (dictUpdate ctx (defaults today)) "approval_conditions"
          (Val.str approvalSentinel))
    ∧ lookupD (dictSet (dictUpdate ctx (defaults today)) "approval_conditions"
        (Val.str approvalSentinel)) "approval_conditions" =
        some (Val.str approvalSentinel)
    ∧ processRow svc catalog today uuid row = .ok (some
        { agreement_id := uuid,
          cam_id := rowGetD row "cam_id" (Val.str "N/A"),
          application_id := aid,
          client_id := cid,
          client_name := rowGetD row "full_name" (Val.str "N/A"),
          template_id := resolveTid row,
          template_name := tinfo.name,
          loan_type := rowGetD row "loan_type" (Val.str "N/A"),
          loan_amount := (lookupD (dictSet (dictUpdate ctx (defaults today))
            "approval_conditions" (Val.str approvalSentinel))
            "loan_amount").getD (Val.str "N/A"),
          populated_agreement_content := svc.render tinfo.content
            (dictSet (dictUpdate ctx (defaults today)) "approval_conditions"
              (Val.str approvalSentinel)),
          generation_date := today,
          status := "Generated",
          review_required := "Yes",
          compliance_check := "Pending" }) := by
  have hcam : camTextOf svc row = none := by
    simp [camTextOf, hcc, hs3, hex]
  have happ : rowApprovalConditions svc row = .ok approvalSentinel := by
    simp [rowApprovalConditions, hcam, exceptPure_eq]
  have hfin : finalContext svc (resolveTid row) row today =
      .ok (dictSet (dictUpdate ctx (defaults today)) "approval_conditions"
        (Val.str approvalSentinel)) := by
    unfold finalContext
    rw [hres, exceptBind_ok, happ, exceptBind_ok]
    rfl
  refine ⟨hcam, happ, hfin, lookupD_dictSet_eq _ _ _, ?_⟩
  have hpr : processRow svc catalog today uuid row =
      processFound svc tinfo today uuid row := by
    unfold processRow
    rw [hcat]
  rw [hpr]
  unfold processFound
  rw [hfin, exceptBind_ok, getV_some_pyGetItem _ _ _ haid,
    exceptBind_ok, getV_some_pyGetItem _ _ _ hcid]
  rfl

/-- C1 witness: on the sample row with a document location and a document
analysis service that raises, the narrative degrades to the sentinel and the
row is emitted with status `"Generated"`. -/
theorem c1_extraction_failure_degrades_amended_witness :
    camTextOf sampleServices sampleRowS3 = none
    ∧ rowApprovalConditions sampleServices sampleRowS3 = .ok approvalSentinel
    ∧ Except.map (fun o => Option.map (fun r : OutputRow => r.status) o)
        (processRow sampleServices sampleCatalog "2026-01-01" "uid-7"
          sampleRowS3) = .ok (some "Generated") := by
  have h := c1_extraction_failure_degrades_amended sampleServices
    sampleCatalog "2026-01-01" "uid-7" "textract unavailable" sampleRowS3
    (match resolveContext (Val.str "TEMPLATE-001") sampleRowS3 with
      | .ok c => c
      | .error _ => [])
    ⟨"T1 body", "Standard Mortgage"⟩ (Val.str "APP-1") (Val.str "C-1")
    (by decide) (by decide) rfl rfl rfl (by decide) (by decide)
  exact ⟨h.1, h.2.1, by rw [h.2.2.2.2]; rfl⟩

/-- C2 counterexample: the claim fails as stated. A non-null but empty
memo-text value is selected as the narrative source, but the truthiness
check `if cam_text:` then routes it to the fixed sentinel without invoking
generation — even though generation on that value would have succeeded with
different text. -/
theorem c2_empty_cam_content_counterexample :
    notnullAt sampleRowEmptyCam "cam_content" = true
    ∧ rowApprovalConditions sampleServices sampleRowEmptyCam =
        .ok approvalSentinel
    ∧ generate_approval_conditions sampleServices (pyStr (Val.str "")) =
        .ok "Verify income documents."
    ∧ approvalSentinel ≠ "Verify income documents." :=
  ⟨rfl, rfl, rfl, by decide⟩

/-- C2 (amended): the narrative source is selected in the fixed order — the
memo-text column when non-null, otherwise the serialized extraction result
when the document-location column is non-null, otherwise no source and no
service call (the outcome is the same for every service implementation) —
and generation is invoked on the selected source only when it is truthy
(non-empty); a falsy source degrades to the fixed sentinel. -/
theorem c2_narrative_source_order_amended (svc : Services) (row : Row) :
    (∀ v, getV row "cam_content" = some v → notnull v = true →
      camTextOf svc row = some v)
    ∧ (notnullAt row "cam_content" = false →
       notnullAt row "cam_s3_key" = true →
      camTextOf svc row =
        (match extract_from_textract svc (rowGetD row "cam_s3_key" Val.null)
          with
        | .ok fields => some (Val.str (joinKV fields))
        | .error _ => none))
    ∧ (notnullAt row "cam_content" = false →
       notnullAt row "cam_s3_key" = false →
      camTextOf svc row = none
      ∧ rowApprovalConditions svc row = .ok approvalSentinel
      ∧ ∀ svc2 : Services, camTextOf svc row = camTextOf svc2 row
        ∧ rowApprovalConditions svc row = rowApprovalConditions svc2 row)
    ∧ (∀ v, camTextOf svc row = some v → pyTruthy v = true →
      rowApprovalConditions svc row =
        generate_approval_conditions svc (pyStr v))
    ∧ (∀ v, camTextOf svc row = some v → pyTruthy v = false →
      rowApprovalConditions svc row = .ok approvalSentinel) := by
  refine ⟨?_, ?_, ?_, ?_, ?_⟩
  · intro v hv hn
    have : notnullAt row "cam_content" = true := by
      rw [notnullAt_some row _ _ hv, hn]
    simp [camTextOf, this, getV_some_rowGetD row _ v Val.null hv]
  · intro hcc hs3
    simp [camTextOf, hcc, hs3]
  · intro hcc hs3
    have hcam : camTextOf svc row = none := by simp [camTextOf, hcc, hs3]
    refine ⟨hcam, by simp [rowApprovalConditions, hcam, exceptPure_eq], ?_⟩
    intro svc2
    have hcam2 : camTextOf svc2 row = none := by simp [camTextOf, hcc, hs3]
    rw [hcam, hcam2]
    exact ⟨rfl, by simp [rowApprovalConditions, hcam, hcam2]⟩
  · intro v hv ht
    simp [rowApprovalConditions, hv, ht]
  · intro v hv ht
    simp [rowApprovalConditions, hv, ht, exceptPure_eq]

/-- C2 witness: on the sample row with pre-supplied memo text, that text is
selected and generation is invoked on it; on the sample row with neither
source, the sentinel appears with no service dependence. -/
theorem c2_narrative_source_order_amended_witness :
    camTextOf sampleServices sampleRowCam = some (Val.str "Approved CAM text")
    ∧ rowApprovalConditions sampleServices sampleRow = .ok approvalSentinel := by
  refine ⟨?_, ?_⟩
  · exact (c2_narrative_source_order_amended sampleServices sampleRowCam).1
      (Val.str "Approved CAM text") (by decide) (by decide)
  · exact (((c2_narrative_source_order_amended sampleServices
      sampleRow).2.2.1) (by decide) (by decide)).2.1

/-- C4 counterexample: the claim fails as stated. `TEMPLATE-004` is unknown
to the mapping catalog (it has no FieldMappingRule set), yet a row resolving
to it is not skipped: because the template definition itself exists in the
template catalog, the row is rendered with an empty field mapping and
emitted. -/
theorem c4_unknown_mapping_not_skipped_counterexample :
    lookupD template_mappings "TEMPLATE-004" = none
    ∧ Except.map (fun o => Option.map (fun r : OutputRow => r.status) o)
        (processRow sampleServices sampleCatalog "2026-01-01" "uid-4"
          sampleRowT4) = .ok (some "Generated") :=
  ⟨rfl, rfl⟩

/-- C4 (amended): the Document Assembler skips a row (excluding it from the
output set) exactly when the row's resolved template id has no definition in
the template catalog; absence of a FieldMappingRule set alone does not skip
the row — it is rendered with an empty field mapping. -/
theorem c4_skip_iff_unknown_template_amended (svc : Services)
    (catalog : List (String × TemplateInfo)) (today uuid : String)
    (row : Row) :
    processRow svc catalog today uuid row = .ok none ↔
      templateLookup catalog (resolveTid row) = none := by
  cases h : templateLookup catalog (resolveTid row) with
  | none =>
    have hr : processRow svc catalog today uuid row = .ok none := by
      unfold processRow
      rw [h]
    simp [hr, h]
  | some tinfo =>
    have hr : processRow svc catalog today uuid row =
        processFound svc tinfo today uuid row := by
      unfold processRow
      rw [h]
    rw [hr]
    constructor
    · intro hc
      exfalso
      unfold processFound at hc
      rcases exceptBind_eq_ok _ _ _ hc with ⟨fctx, _, hc2⟩
      rcases exceptBind_eq_ok _ _ _ hc2 with ⟨aid, _, hc3⟩
      rcases exceptMap_eq_ok _ _ _ hc3 with ⟨cid, _, hc4⟩
      exact Option.noConfusion hc4
    · intro hc
      exact Option.noConfusion hc

/-! ### Lemmas about the document field extractor -/

theorem concatAll_append (a b : List String) :
    concatAll (a ++ b) = concatAll a ++ concatAll b := by
  induction a with
  | nil => simp [concatAll, String.empty_append]
  | cons x t ih =>
    rw [List.cons_append, concatAll, concatAll, ih, String.append_assoc]

theorem foldl_cat_map {β : Type} (g : β → String) (ids : List β) :
    ∀ acc : String,
      ids.foldl (fun a x => a ++ g x) acc = acc ++ concatAll (ids.map g) := by
  induction ids with
  | nil => intro acc; simp [concatAll]
  | cons i t ih =>
    intro acc
    rw [List.foldl_cons, ih, List.map_cons, concatAll,
      String.append_assoc]

/-- The imperative `key_text`/`val_text` accumulation equals the
concatenation of the child fragments' texts. -/
theorem childText_eq (resp : TextractResponse) (rels : List TRel) :
    childText resp rels =
      concatAll ((childIds rels).map (fragmentText resp)) := by
  suffices h : ∀ acc : String,
      rels.foldl
        (fun acc rel =>
          if rel.relType = "CHILD" then
            rel.ids.foldl
              (fun a cid =>
                a ++ ((resp.blocks.find?
                  (fun b => b.id = cid && b.text.isSome)).bind
                    (fun b => b.text)).getD "")
              acc
          else acc)
        acc = acc ++ concatAll ((childIds rels).map (fragmentText resp)) by
    rw [childText, h ""]
    rw [String.empty_append]
  induction rels with
  | nil => intro acc; simp [childIds, concatAll]
  | cons r t ih =>
    intro acc
    rw [List.foldl_cons]
    by_cases hr : r.relType = "CHILD"
    · rw [if_pos hr]
      rw [show (r.ids.foldl
          (fun a cid =>
            a ++ ((resp.blocks.find?
              (fun b => b.id = cid && b.text.isSome)).bind
                (fun b => b.text)).getD "")
          acc) = acc ++ concatAll (r.ids.map (fragmentText resp)) from
        foldl_cat_map (fragmentText resp) r.ids acc, ih]
      rw [show childIds (r :: t) = r.ids ++ childIds t by
        simp [childIds, List.filter_cons, hr]]
      rw [List.map_append, concatAll_append, String.append_assoc]
    · rw [if_neg hr, ih]
      rw [show childIds (r :: t) = childIds t by
        simp [childIds, List.filter_cons, hr]]

/-- One extraction step on a key block whose `VALUE` relationships are
well formed writes exactly the declarative label/value pair. -/
theorem extractStep_key_ok (resp : TextractResponse) (b : TBlock)
    (acc : List (String × String)) (hk : isKeyBlock b = true)
    (hids : ∀ r ∈ b.relationships, r.relType = "VALUE" → r.ids ≠ []) :
    extractStep resp acc b =
      .ok (dictSet acc (labelOf resp b) (valueOf resp b)) := by
  have hlab : labelOf resp b = pyStrip (childText resp b.relationships) := by
    unfold labelOf; rw [childText_eq]
  cases hf : b.relationships.find? (fun r => r.relType = "VALUE") with
  | none =>
    have hvid : valueBlockId b.relationships = .ok none := by
      simp only [valueBlockId, hf]
    have hval : valueOf resp b = pyStrip (valTextOf resp none) := by
      simp only [valueOf, valueBlockOf, hf, valTextOf]
      rfl
    simp only [extractStep, hk, if_true, hvid, exceptBind_ok, hlab, hval,
      exceptPure_eq]
  | some r =>
    cases hi : r.ids with
    | nil =>
      exact absurd hi
        (hids r (List.mem_of_find?_eq_some hf)
          (by simpa using List.find?_some hf))
    | cons i t =>
      have hvid : valueBlockId b.relationships = .ok (some i) := by
        simp only [valueBlockId, hf, hi]
      have hval : valueOf resp b = pyStrip (valTextOf resp (some i)) := by
        simp only [valueOf, valueBlockOf, hf, hi, valTextOf]
        cases hvb : lookupD (blocksById resp) i with
        | none => rfl
        | some vb => simp only [childText_eq]
      simp only [extractStep, hk, if_true, hvid, exceptBind_ok, hlab, hval,
        exceptPure_eq]

/-- The extraction loop, run over any block list whose key blocks are well
formed, succeeds with the declarative fold. -/
theorem extract_foldlM (resp : TextractResponse) (bl : List TBlock)
    (hids : ∀ b ∈ bl, isKeyBlock b = true →
      ∀ r ∈ b.relationships, r.relType = "VALUE" → r.ids ≠ []) :
    ∀ acc, bl.foldlM (extractStep resp) acc =
      .ok ((bl.filter isKeyBlock).foldl
        (fun d b => dictSet d (labelOf resp b) (valueOf resp b)) acc) := by
  induction bl with
  | nil => intro acc; simp [List.foldlM, exceptPure_eq]
  | cons b t ih =>
    intro acc
    have ht : ∀ x ∈ t, isKeyBlock x = true →
        ∀ r ∈ x.relationships, r.relType = "VALUE" → r.ids ≠ [] :=
      fun x hx => hids x (List.mem_cons_of_mem _ hx)
    rw [List.foldlM_cons]
    by_cases hk : isKeyBlock b = true
    · rw [extractStep_key_ok resp b acc hk (hids b (by simp) hk),
        exceptBind_ok, ih ht]
      rw [show (b :: t).filter isKeyBlock = b :: t.filter isKeyBlock by
        simp [List.filter_cons, hk]]
      rw [List.foldl_cons]
    · rw [show extractStep resp acc b = .ok acc by
        simp only [extractStep, if_neg hk, exceptPure_eq], exceptBind_ok,
        ih ht]
      rw [show (b :: t).filter isKeyBlock = t.filter isKeyBlock by
        simp [List.filter_cons, hk]]

/-- Last-write-wins: a left fold of dict insertions reads like first-match
lookup in the reversed insertion list. -/
theorem lookupD_foldl_dictSet {α : Type} (ps : List (String × α))
    (l : String) :
    ∀ init, lookupD (ps.foldl (fun d p => dictSet d p.1 p.2) init) l =
      match lookupD ps.reverse l with
      | some v => some v
      | none => lookupD init l := by
  induction ps with
  | nil => intro init; simp [lookupD]
  | cons p t ih =>
    intro init
    rw [List.foldl_cons, ih (dictSet init p.1 p.2)]
    rw [List.reverse_cons, lookupD_append]
    cases h : lookupD t.reverse l with
    | some v => rfl
    | none =>
      rw [lookupD_dictSet]
      by_cases hl : l = p.1
      · rw [if_pos hl, lookupD_cons, if_pos hl.symm]
      · rw [if_neg hl, lookupD_cons,
          if_neg (fun hx => hl hx.symm)]
        rfl

/-- C10: for every document-analysis response whose `VALUE` relationships
carry at least one id, the extractor returns (without failing) the flat
mapping holding one insertion per block tagged as a key of a key-value set,
whose label and value are the trimmed concatenations of the respective
child-fragment texts; a missing value pairing or missing child fragments
contribute the empty string instead of failing the extraction; and duplicate
labels resolve last-write-wins (the final mapping reads like first-match
lookup in the reversed insertion order). -/
theorem c10_extractor_characterization (resp : TextractResponse)
    (hids : ∀ b ∈ resp.blocks, isKeyBlock b = true →
      ∀ r ∈ b.relationships, r.relType = "VALUE" → r.ids ≠ []) :
    extractFromResponse resp = .ok (extractSpec resp)
    ∧ (∀ b ∈ keyBlocks resp,
        b.relationships.find? (fun r => r.relType = "VALUE") = none →
        valueOf resp b = "")
    ∧ (∀ b ∈ keyBlocks resp, childIds b.relationships = [] →
        labelOf resp b = "")
    ∧ (∀ l, lookupD (extractSpec resp) l =
        lookupD ((keyBlocks resp).map
          (fun b => (labelOf resp b, valueOf resp b))).reverse l) := by
  refine ⟨?_, ?_, ?_, ?_⟩
  · rw [show extractFromResponse resp =
      resp.blocks.foldlM (extractStep resp) [] from rfl,
      extract_foldlM resp resp.blocks hids []]
    rfl
  · intro b _ hf
    unfold valueOf valueBlockOf
    rw [hf]
  · intro b _ hc
    unfold labelOf
    rw [hc]
    rfl
  · intro l
    rw [show extractSpec resp =
        ((keyBlocks resp).map
          (fun b => (labelOf resp b, valueOf resp b))).foldl
          (fun d p => dictSet d p.1 p.2) [] by
      rw [extractSpec, List.foldl_map]]
    rw [lookupD_foldl_dictSet _ l []]
    cases h : lookupD ((keyBlocks resp).map
        (fun b => (labelOf resp b, valueOf resp b))).reverse l with
    | some v => rfl
    | none => rfl

/-- C10 witness: on a concrete response with one fragment-built key/value
pair and one bare key block, extraction succeeds with the two trimmed
entries. -/
theorem c10_extractor_characterization_witness :
    extractFromResponse sampleResponse = .ok (extractSpec sampleResponse)
    ∧ extractSpec sampleResponse = [("Loan Amount:", "500000"), ("", "")] :=
  ⟨(c10_extractor_characterization sampleResponse (by decide)).1, rfl⟩

/-! ### Lemmas about the record merger -/

theorem renCol_nil (suf c : String) : renCol [] suf c = c := rfl

theorem map_renCol_nil (suf : String) (cs : List String) :
    cs.map (renCol [] suf) = cs := by
  induction cs with
  | nil => rfl
  | cons c t ih => rw [List.map_cons, renCol_nil, ih]

theorem lookupD_eq_none_of_keys {α : Type} (d : List (String × α))
    (c : String) (h : ∀ p ∈ d, p.1 ≠ c) : lookupD d c = none := by
  induction d with
  | nil => rfl
  | cons p t ih =>
    rw [lookupD_cons, if_neg (h p (by simp))]
    exact ih (fun q hq => h q (List.mem_cons_of_mem _ hq))

theorem filter_len_le_one (rows : List Row) (key : String) (v : Option Val)
    (hU : rows.Pairwise (fun a b => getV a key ≠ getV b key)) :
    (rows.filter (fun rr => getV rr key == v)).length ≤ 1 := by
  induction rows with
  | nil => simp
  | cons a t ih =>
    rcases List.pairwise_cons.mp hU with ⟨ha, ht⟩
    rw [List.filter_cons]
    by_cases hav : (getV a key == v) = true
    · rw [if_pos hav]
      have hnil : t.filter (fun rr => getV rr key == v) = [] := by
        rw [List.filter_eq_nil_iff]
        intro b hb hbv
        rw [beq_iff_eq] at hav hbv
        exact ha b hb (hav.trans hbv.symm)
      rw [hnil]
      simp
    · rw [if_neg hav]
      exact ih ht

/-- Under right-side key uniqueness and no column collisions, each left row
contributes exactly one merged row, and that row agrees with the left row on
every column that is the join key or absent from the right set. -/
theorem mergeRowsFor_singleton (r : DF) (key c : String) (lr : Row)
    (hU : r.keyUnique key) (hwr : r.wf) (hc : c = key ∨ c ∉ r.cols) :
    ∃ orow, mergeRowsFor r key [] lr = [orow]
      ∧ getV orow c = getV lr c := by
  unfold mergeRowsFor
  by_cases hE :
      (r.rows.filter (fun rr => getV rr key == getV lr key)).isEmpty = true
  · rw [if_pos hE]
    refine ⟨_, rfl, ?_⟩
    show lookupD _ c = lookupD lr c
    rw [show lr.map (fun p => (renCol [] "_x" p.1, p.2)) = lr by
      simp [renCol_nil]]
    rw [lookupD_append]
    cases hg : lookupD lr c with
    | some v => rfl
    | none =>
      show lookupD _ c = none
      refine lookupD_eq_none_of_keys _ c ?_
      intro p hp
      rcases List.mem_map.mp hp with ⟨x, hx, hpx⟩
      rcases List.mem_filter.mp hx with ⟨hxr, hxk⟩
      rw [← hpx]
      rcases hc with hck | hcn
      · subst hck
        simpa [renCol_nil] using of_decide_eq_true hxk
      · intro hxc
        rw [renCol_nil] at hxc
        exact hcn (hxc ▸ hxr)
  · rw [if_neg hE]
    have hle := filter_len_le_one r.rows key (getV lr key) hU
    cases hhits : r.rows.filter (fun rr => getV rr key == getV lr key) with
    | nil => rw [hhits] at hE; simp at hE
    | cons rr rest =>
      have hrest : rest = [] := by
        rw [hhits, List.length_cons] at hle
        exact List.length_eq_zero.mp (by omega)
      subst hrest
      refine ⟨_, rfl, ?_⟩
      show lookupD _ c = lookupD lr c
      rw [show lr.map (fun p => (renCol [] "_x" p.1, p.2)) = lr by
        simp [renCol_nil]]
      rw [lookupD_append]
      cases hg : lookupD lr c with
      | some v => rfl
      | none =>
        have hrr : rr ∈ r.rows :=
          List.mem_of_mem_filter (hhits ▸ List.mem_cons_self rr [])
        show lookupD _ c = none
        refine lookupD_eq_none_of_keys _ c ?_
        intro p hp
        rcases List.mem_map.mp hp with ⟨x, hx, hpx⟩
        rcases List.mem_filter.mp hx with ⟨hxr, hxk⟩
        rw [← hpx]
        have hxcols : x.1 ∈ r.cols := by
          rw [← hwr rr hrr]
          exact List.mem_map_of_mem Prod.fst hxr
        rcases hc with hck | hcn
        · subst hck
          simpa [renCol_nil] using of_decide_eq_true hxk
        · intro hxc
          rw [renCol_nil] at hxc
          exact hcn (hxc ▸ hxcols)

/-- One collision-free left join against a key-unique right set preserves
the number of rows, preserves per-value multiplicities of any column that is
the key or foreign to the right set, and appends the right columns without
suffix renaming. -/
theorem merge_step (l r : DF) (key c : String)
    (hU : r.keyUnique key) (hd : mergeCommon l r key = [])
    (hwr : r.wf) (hc : c = key ∨ c ∉ r.cols) :
    (l.merge r key).rows.length = l.rows.length
    ∧ (∀ v : Option Val,
        ((l.merge r key).rows.filter (fun rw => getV rw c == v)).length =
          (l.rows.filter (fun rw => getV rw c == v)).length)
    ∧ (l.merge r key).cols = l.cols ++ r.cols.filter (fun x => x ≠ key) := by
  have hrows : (l.merge r key).rows =
      l.rows.flatMap (mergeRowsFor r key []) := by
    rw [DF.merge, hd]
  refine ⟨?_, ?_, ?_⟩
  · rw [hrows]
    induction l.rows with
    | nil => rfl
    | cons a t ih =>
      rcases mergeRowsFor_singleton r key c a hU hwr hc with ⟨orow, ho, _⟩
      rw [List.flatMap_cons, ho, List.length_append, ih,
        List.length_singleton, List.length_cons]
      omega
  · intro v
    rw [hrows]
    induction l.rows with
    | nil => rfl
    | cons a t ih =>
      rcases mergeRowsFor_singleton r key c a hU hwr hc with ⟨orow, ho, hov⟩
      rw [List.flatMap_cons, ho]
      cases hpa : (getV a c == v) <;>
        simp [List.filter_append, List.filter_cons, hov, hpa, ih]
  · rw [DF.merge, hd, map_renCol_nil, map_renCol_nil]

/-- C3 counterexample: the claim fails as stated. With two distinct
`borrowing_requests` rows for one `application_id`, the left-join chain
produces two merged rows for that application; and a reintroduced column the
merger does not drop (here `full_name`) yields suffix-renamed duplicate
columns `full_name_x`/`full_name_y`. -/
theorem c3_merge_counterexample :
    laDF.rows.length = 1
    ∧ ((recordMerger clDF laDF brDupDF emptyAppDF emptyAppDF
        emptyAppDF).rows.filter
          (fun rw => getV rw "application_id" == some (Val.str "A1"))).length
        = 2
    ∧ (recordMerger clDF laDF brCollDF emptyAppDF emptyAppDF
        emptyAppDF).cols =
        ["application_id", "client_id", "full_name_x", "full_name_y"] :=
  ⟨rfl, rfl, rfl⟩

/-- C3 (amended): when every later record set has at most one row per join
key and — after dropping the `client_id`/`requested_amount` duplicates — no
remaining column collides with the accumulated left side, the merged set has
exactly one row per loan-application row, `application_id` multiplicities
are preserved, and the columns are the inputs' columns joined without any
suffix renaming. With duplicate right-side keys or undropped collisions the
invariant fails (see the counterexample). -/
theorem c3_merge_amended (clients loans br ud cam ts : DF)
    (u1 : clients.keyUnique "client_id")
    (u2 : (br.dropCols droppedJoinCols).keyUnique "application_id")
    (u3 : (ud.dropCols droppedJoinCols).keyUnique "application_id")
    (u4 : (cam.dropCols droppedJoinCols).keyUnique "application_id")
    (u5 : (ts.dropCols droppedJoinCols).keyUnique "application_id")
    (w1 : clients.wf) (w2 : (br.dropCols droppedJoinCols).wf)
    (w3 : (ud.dropCols droppedJoinCols).wf)
    (w4 : (cam.dropCols droppedJoinCols).wf)
    (w5 : (ts.dropCols droppedJoinCols).wf)
    (hna : "application_id" ∉ clients.cols)
    (d1 : mergeCommon loans clients "client_id" = [])
    (d2 : mergeCommon (loans.merge clients "client_id")
      (br.dropCols droppedJoinCols) "application_id" = [])
    (d3 : mergeCommon ((loans.merge clients "client_id").merge
        (br.dropCols droppedJoinCols) "application_id")
      (ud.dropCols droppedJoinCols) "application_id" = [])
    (d4 : mergeCommon (((loans.merge clients "client_id").merge
        (br.dropCols droppedJoinCols) "application_id").merge
        (ud.dropCols droppedJoinCols) "application_id")
      (cam.dropCols droppedJoinCols) "application_id" = [])
    (d5 : mergeCommon ((((loans.merge clients "client_id").merge
        (br.dropCols droppedJoinCols) "application_id").merge
        (ud.dropCols droppedJoinCols) "application_id").merge
        (cam.dropCols droppedJoinCols) "application_id")
      (ts.dropCols droppedJoinCols) "application_id" = []) :
    (recordMerger clients loans br ud cam ts).rows.length = loans.rows.length
    ∧ (∀ v : Option Val,
        ((recordMerger clients loans br ud cam ts).rows.filter
          (fun rw => getV rw "application_id" == v)).length =
        (loans.rows.filter (fun rw => getV rw "application_id" == v)).length)
    ∧ (recordMerger clients loans br ud cam ts).cols =
        loans.cols ++ clients.cols.filter (fun x => x ≠ "client_id")
          ++ (br.dropCols droppedJoinCols).cols.filter
            (fun x => x ≠ "application_id")
          ++ (ud.dropCols droppedJoinCols).cols.filter
            (fun x => x ≠ "application_id")
          ++ (cam.dropCols droppedJoinCols).cols.filter
            (fun x => x ≠ "application_id")
          ++ (ts.dropCols droppedJoinCols).cols.filter
            (fun x => x ≠ "application_id") := by
  have s1 := merge_step loans clients "client_id" "application_id" u1 d1 w1
    (Or.inr hna)
  have s2 := merge_step (loans.merge clients "client_id")
    (br.dropCols droppedJoinCols) "application_id" "application_id" u2 d2 w2
    (Or.inl rfl)
  have s3 := merge_step ((loans.merge clients "client_id").merge
      (br.dropCols droppedJoinCols) "application_id")
    (ud.dropCols droppedJoinCols) "application_id" "application_id" u3 d3 w3
    (Or.inl rfl)
  have s4 := merge_step (((loans.merge clients "client_id").merge
      (br.dropCols droppedJoinCols) "application_id").merge
      (ud.dropCols droppedJoinCols) "application_id")
    (cam.dropCols droppedJoinCols) "application_id" "application_id" u4 d4 w4
    (Or.inl rfl)
  have s5 := merge_step ((((loans.merge clients "client_id").merge
      (br.dropCols droppedJoinCols) "application_id").merge
      (ud.dropCols droppedJoinCols) "application_id").merge
      (cam.dropCols droppedJoinCols) "application_id")
    (ts.dropCols droppedJoinCols) "application_id" "application_id" u5 d5 w5
    (Or.inl rfl)
  refine ⟨?_, ?_, ?_⟩
  · rw [recordMerger]
    rw [s5.1, s4.1, s3.1, s2.1, s1.1]
  · intro v
    rw [recordMerger]
    rw [s5.2.1 v, s4.2.1 v, s3.2.1 v, s2.2.1 v, s1.2.1 v]
  · rw [recordMerger]
    rw [s5.2.2, s4.2.2, s3.2.2, s2.2.2, s1.2.2]

/-- C3 witness: on small concrete record sets with unique keys, where
`borrowing_requests` reintroduces `client_id`/`requested_amount` (which the
merger drops), the merged set keeps one row per application with no
suffix-renamed columns. -/
theorem c3_merge_amended_witness :
    (recordMerger clDF laDF brOkDF emptyAppDF emptyAppDF
      emptyAppDF).rows.length = laDF.rows.length
    ∧ ((recordMerger clDF laDF brOkDF emptyAppDF emptyAppDF
        emptyAppDF).rows.filter
          (fun rw => getV rw "application_id" == some (Val.str "A1"))).length
        = (laDF.rows.filter
          (fun rw => getV rw "application_id" == some (Val.str "A1"))).length
    ∧ (recordMerger clDF laDF brOkDF emptyAppDF emptyAppDF
        emptyAppDF).cols =
        laDF.cols ++ clDF.cols.filter (fun x => x ≠ "client_id")
          ++ (brOkDF.dropCols droppedJoinCols).cols.filter
            (fun x => x ≠ "application_id")
          ++ (emptyAppDF.dropCols droppedJoinCols).cols.filter
            (fun x => x ≠ "application_id")
          ++ (emptyAppDF.dropCols droppedJoinCols).cols.filter
            (fun x => x ≠ "application_id")
          ++ (emptyAppDF.dropCols droppedJoinCols).cols.filter
            (fun x => x ≠ "application_id") := by
  have h := c3_merge_amended clDF laDF brOkDF emptyAppDF emptyAppDF
    emptyAppDF (by decide) (by decide) (by decide) (by decide) (by decide)
    (by decide) (by decide) (by decide) (by decide) (by decide) (by decide)
    (by decide) (by decide) (by decide) (by decide) (by decide)
  exact ⟨h.1, h.2.1 (some (Val.str "A1")), h.2.2⟩

end CreditAgreements
